import Mathlib

/-!
Shallow embedding of `library/lms.c` (the LMS stateful hash-based signature
scheme, parameter set LMS_SHA256_M32_H10 over LMOTS_SHA256_N32_W8) and proofs
about it.

Modelling conventions:
* machine bytes are `Nat` values (< 256 for every byte the code itself
  produces); caller-supplied buffers are total functions `Nat → Nat`,
  which also models reading uninitialised or out-of-range memory;
* the SHA-256 primitive behind `psa_hash_*` is an explicit parameter
  `Hasher : List Nat → Option (List Nat)` (`none` models a PSA failure,
  exactly the case in which the C never writes the output buffer);
* the LMOTS collaborator (`lmots.c`, not part of the sources) and the
  constants from the `lms.h`/`lmots.h` headers are modelled from the spec;
* fallible C functions returning `int` become functions returning the
  `Int` status together with the updated context/buffers.
-/

namespace LmsSpec

/-- Modelled from the spec (§6.3): the accepted LMS algorithm identifier
`MBEDTLS_LMS_SHA256_M32_H10 = 0x00000006` from the `mbedtls/lms.h` header,
which is not among the sources. -/
def MBEDTLS_LMS_SHA256_M32_H10 : Nat := 0x6

/-- Modelled from the spec (§6.3): the accepted LMOTS algorithm identifier
`MBEDTLS_LMOTS_SHA256_N32_W8 = 0x00000004` from the `mbedtls/lmots.h` header. -/
def MBEDTLS_LMOTS_SHA256_N32_W8 : Nat := 0x4

/-- Modelled from the spec (§7 error taxonomy): `BadInput` status code from
the `mbedtls/lms.h` header. Only distinctness of the error codes matters. -/
def MBEDTLS_ERR_LMS_BAD_INPUT_DATA : Int := -0x0011

/-- Modelled from the spec (§7): `OutOfPrivateKeys` status code. -/
def MBEDTLS_ERR_LMS_OUT_OF_PRIVATE_KEYS : Int := -0x0013

/-- Modelled from the spec (§7): `VerifyFailed` status code. -/
def MBEDTLS_ERR_LMS_VERIFY_FAILED : Int := -0x0015

/-- Modelled from the spec (§7): `AllocFailed` status code. -/
def MBEDTLS_ERR_LMS_ALLOC_FAILED : Int := -0x0017

/-- Modelled from the spec (§7): `BufferTooSmall` status code. -/
def MBEDTLS_ERR_LMS_BUFFER_TOO_SMALL : Int := -0x0019

/-- Modelled from the spec (§7): the `InternalCryptoError` status produced by
`mbedtls_lms_error_from_psa` (defined in `lmots.c`, not among the sources)
for a failing PSA hash status. Any nonzero value serves. -/
def MBEDTLS_ERR_LMS_INTERNAL_CRYPTO : Int := -0x006E

/-- Modelled from the spec (§3): `MBEDTLS_LMS_TYPE_LEN = 4` (header constant). -/
def MBEDTLS_LMS_TYPE_LEN : Nat := 4

/-- Modelled from the spec (§3): `MBEDTLS_LMOTS_TYPE_LEN = 4` (header constant). -/
def MBEDTLS_LMOTS_TYPE_LEN : Nat := 4

/-- Modelled from the spec (§3): `MBEDTLS_LMOTS_I_KEY_ID_LEN = 16` (header constant). -/
def MBEDTLS_LMOTS_I_KEY_ID_LEN : Nat := 16

/-- Modelled from the spec (§3): `MBEDTLS_LMOTS_Q_LEAF_ID_LEN = 4` (header constant). -/
def MBEDTLS_LMOTS_Q_LEAF_ID_LEN : Nat := 4

/-- Modelled from the spec (§3): the node length `m = 32` bytes,
`MBEDTLS_LMS_M_NODE_BYTES(type)` (header macro). -/
def MBEDTLS_LMS_M_NODE_BYTES (_type : Nat) : Nat := 32

/-- Modelled from the spec (§3): the OTS hash length `n = 32` bytes,
`MBEDTLS_LMOTS_N_HASH_LEN(otstype)` (header macro). -/
def MBEDTLS_LMOTS_N_HASH_LEN (_otstype : Nat) : Nat := 32

/-- Modelled from the spec (§3): the tree height `H = 10`,
`MBEDTLS_LMS_H_TREE_HEIGHT(type)` (header macro). -/
def MBEDTLS_LMS_H_TREE_HEIGHT (_type : Nat) : Nat := 10

/-- Modelled from the spec (§6.2): the LMOTS signature length of 1136 bytes,
`MBEDTLS_LMOTS_SIG_LEN(otstype)` (header macro). -/
def MBEDTLS_LMOTS_SIG_LEN (_otstype : Nat) : Nat := 1136

/-- Modelled from the spec (§6.2): the `ots_type` field sits at offset 0 of the
LMOTS signature subrecord, `MBEDTLS_LMOTS_SIG_TYPE_OFFSET` (header constant). -/
def MBEDTLS_LMOTS_SIG_TYPE_OFFSET : Nat := 0

/-- Modelled from the spec (§6.1): the serialised public-key length
`MBEDTLS_LMS_PUBLIC_KEY_LEN(type) = 4 + 4 + 16 + 32 = 56` (header macro). -/
def MBEDTLS_LMS_PUBLIC_KEY_LEN (type : Nat) : Nat :=
  MBEDTLS_LMS_TYPE_LEN + MBEDTLS_LMOTS_TYPE_LEN + MBEDTLS_LMOTS_I_KEY_ID_LEN +
    MBEDTLS_LMS_M_NODE_BYTES type

/-- Modelled from the spec (§6.2): the serialised signature length
`MBEDTLS_LMS_SIG_LEN(type, otstype) = 4 + 1136 + 4 + 10·32 = 1464` (header macro). -/
def MBEDTLS_LMS_SIG_LEN (type otstype : Nat) : Nat :=
  MBEDTLS_LMOTS_Q_LEAF_ID_LEN + MBEDTLS_LMOTS_SIG_LEN otstype +
    MBEDTLS_LMS_TYPE_LEN + MBEDTLS_LMS_H_TREE_HEIGHT type * MBEDTLS_LMS_M_NODE_BYTES type

/-- `SIG_Q_LEAF_ID_OFFSET` from `lms.c`. -/
def SIG_Q_LEAF_ID_OFFSET : Nat := 0

/-- `SIG_OTS_SIG_OFFSET` from `lms.c`. -/
def SIG_OTS_SIG_OFFSET : Nat := SIG_Q_LEAF_ID_OFFSET + MBEDTLS_LMOTS_Q_LEAF_ID_LEN

/-- `SIG_TYPE_OFFSET(otstype)` from `lms.c`. -/
def SIG_TYPE_OFFSET (otstype : Nat) : Nat :=
  SIG_OTS_SIG_OFFSET + MBEDTLS_LMOTS_SIG_LEN otstype

/-- `SIG_PATH_OFFSET(otstype)` from `lms.c`. -/
def SIG_PATH_OFFSET (otstype : Nat) : Nat :=
  SIG_TYPE_OFFSET otstype + MBEDTLS_LMS_TYPE_LEN

/-- `PUBLIC_KEY_TYPE_OFFSET` from `lms.c`. -/
def PUBLIC_KEY_TYPE_OFFSET : Nat := 0

/-- `PUBLIC_KEY_OTSTYPE_OFFSET` from `lms.c`. -/
def PUBLIC_KEY_OTSTYPE_OFFSET : Nat := PUBLIC_KEY_TYPE_OFFSET + MBEDTLS_LMS_TYPE_LEN

/-- `PUBLIC_KEY_I_KEY_ID_OFFSET` from `lms.c`. -/
def PUBLIC_KEY_I_KEY_ID_OFFSET : Nat := PUBLIC_KEY_OTSTYPE_OFFSET + MBEDTLS_LMOTS_TYPE_LEN

/-- `PUBLIC_KEY_ROOT_NODE_OFFSET` from `lms.c`. -/
def PUBLIC_KEY_ROOT_NODE_OFFSET : Nat :=
  PUBLIC_KEY_I_KEY_ID_OFFSET + MBEDTLS_LMOTS_I_KEY_ID_LEN

/-- `H_TREE_HEIGHT_MAX` from `lms.c`. -/
def H_TREE_HEIGHT_MAX : Nat := 10

/-- `MERKLE_TREE_NODE_AM(type)` from `lms.c`: `2^(H+1)`. -/
def MERKLE_TREE_NODE_AM (type : Nat) : Nat := 2 ^ (MBEDTLS_LMS_H_TREE_HEIGHT type + 1)

/-- `MERKLE_TREE_LEAF_NODE_AM(type)` from `lms.c`: `2^H`. -/
def MERKLE_TREE_LEAF_NODE_AM (type : Nat) : Nat := 2 ^ MBEDTLS_LMS_H_TREE_HEIGHT type

/-- `MERKLE_TREE_INTERNAL_NODE_AM(type)` from `lms.c`: `2^H`. -/
def MERKLE_TREE_INTERNAL_NODE_AM (type : Nat) : Nat := 2 ^ MBEDTLS_LMS_H_TREE_HEIGHT type

/-- `D_LEAF_CONSTANT_BYTES` from `lms.c`. -/
def D_LEAF_CONSTANT_BYTES : List Nat := [0x82, 0x82]

/-- `D_INTR_CONSTANT_BYTES` from `lms.c`. -/
def D_INTR_CONSTANT_BYTES : List Nat := [0x83, 0x83]

/-! ## Wire codec (modelled from the spec §4.1; `mbedtls_lms_unsigned_int_to_network_bytes`
and `mbedtls_lms_network_bytes_to_unsigned_int` live in `lmots.c`, not among the sources). -/

/-- Modelled from the spec: `encode_u(n, width, out)` writes `n` into `width`
bytes, big-endian. -/
def mbedtls_lms_unsigned_int_to_network_bytes : Nat → Nat → List Nat
  | _, 0 => []
  | val, len + 1 => mbedtls_lms_unsigned_int_to_network_bytes (val / 256) len ++ [val % 256]

/-- Reading `n` bytes from a byte sequence, with 0 for positions past the end
(the C reads fixed-size regions out of buffers it trusts to be large enough). -/
def bytesOf (l : List Nat) (n : Nat) : List Nat :=
  (List.range n).map fun i => l.getD i 0

/-- Modelled from the spec: `decode_u(width, in)` reads an unsigned big-endian
value of the given width. -/
def mbedtls_lms_network_bytes_to_unsigned_int (len : Nat) (bytes : List Nat) : Nat :=
  (bytesOf bytes len).foldl (fun acc b => acc * 256 + b) 0

/-! ## Byte buffers -/

/-- A caller-supplied byte buffer: total map from offsets to byte values. -/
abbrev Buf := Nat → Nat

/-- Writing a byte string into a buffer at an offset (a `memcpy` into `b + off`). -/
def buf_write (b : Buf) (off : Nat) (data : List Nat) : Buf :=
  fun i => if off ≤ i ∧ i < off + data.length then data.getD (i - off) 0 else b i

/-- Reading `len` bytes from a buffer at an offset. -/
def buf_read (b : Buf) (off len : Nat) : List Nat :=
  (List.range len).map fun i => b (off + i)

/-! ## Contexts (`mbedtls_lms_parameters_t`, `mbedtls_lms_public_t`,
`mbedtls_lms_private_t`). -/

/-- The `mbedtls_lms_parameters_t` structure: parameter pair and the 16-byte
key identifier `I`. -/
structure LmsParameters where
  type : Nat
  otstype : Nat
  I_key_identifier : List Nat
deriving DecidableEq, Repr

/-- The `mbedtls_lms_public_t` context. -/
structure LmsPublic where
  params : LmsParameters
  T_1_pub_key : List Nat
  have_public_key : Bool
deriving DecidableEq, Repr

/-- The `mbedtls_lms_private_t` context. The two parallel OTS key arrays are
modelled as functions from the slot index; the OTS key material itself is an
opaque byte string. -/
structure LmsPrivate where
  params : LmsParameters
  ots_private_keys : Nat → List Nat
  ots_public_keys : Nat → List Nat
  q_next_usable_key : Nat
  have_private_key : Bool

/-! ## Collaborators: hashing and the LMOTS primitive -/

/-- The SHA-256 primitive behind the `psa_hash_*` calls: it may fail
(`none`), in which case the C leaves the output buffer untouched. -/
abbrev Hasher := List Nat → Option (List Nat)

/-- The RNG callback `f_rng(p_rng, buf, len)`: the requested length maps to a
status and the bytes stored into the buffer. -/
abbrev RngT := Nat → Int × List Nat

/-- Modelled from the spec (§6.4): the LMOTS collaborator (`lmots.c` is not
among the sources). Private and public OTS keys are opaque byte strings. -/
structure OtsScheme where
  gen_private : Nat → List Nat → Nat → List Nat → Except Int (List Nat)
  calc_public : List Nat → Except Int (List Nat)
  ots_sign : List Nat → RngT → List Nat → Except Int (List Nat)
  calc_candidate : List Nat → Nat → Nat → List Nat → List Nat → Except Int (List Nat)

/-! ## Node hasher (`create_merkle_leaf_value`, `create_merkle_internal_value`) -/

/-- `create_merkle_leaf_value` from `lms.c`: `H(I || u32(r) || D_LEAF || pub_key)`.
On a PSA failure the output buffer is not written and the translated PSA error
is returned. -/
def create_merkle_leaf_value (hasher : Hasher) (params : LmsParameters)
    (pub_key : List Nat) (r_node_idx : Nat) : Except Int (List Nat) :=
  match hasher (bytesOf params.I_key_identifier MBEDTLS_LMOTS_I_KEY_ID_LEN ++
      mbedtls_lms_unsigned_int_to_network_bytes r_node_idx 4 ++
      D_LEAF_CONSTANT_BYTES ++
      bytesOf pub_key (MBEDTLS_LMOTS_N_HASH_LEN params.otstype)) with
  | some out => .ok out
  | none => .error MBEDTLS_ERR_LMS_INTERNAL_CRYPTO

/-- `create_merkle_internal_value` from `lms.c`:
`H(I || u32(r) || D_INTR || left || right)`. -/
def create_merkle_internal_value (hasher : Hasher) (params : LmsParameters)
    (left_node right_node : List Nat) (r_node_idx : Nat) : Except Int (List Nat) :=
  match hasher (bytesOf params.I_key_identifier MBEDTLS_LMOTS_I_KEY_ID_LEN ++
      mbedtls_lms_unsigned_int_to_network_bytes r_node_idx 4 ++
      D_INTR_CONSTANT_BYTES ++
      bytesOf left_node (MBEDTLS_LMS_M_NODE_BYTES params.type) ++
      bytesOf right_node (MBEDTLS_LMS_M_NODE_BYTES params.type)) with
  | some out => .ok out
  | none => .error MBEDTLS_ERR_LMS_INTERNAL_CRYPTO

/-! ## Tree builder (`calculate_merkle_tree`, `get_merkle_path`) -/

/-- Pointwise update of the node array (one `tree[idx] = v` store). -/
def tree_set (t : Nat → List Nat) (idx : Nat) (v : List Nat) : Nat → List Nat :=
  fun j => if j = idx then v else t j

/-- The first loop of `calculate_merkle_tree` from `lms.c`: leaf nodes in
ascending order. `calc_leaves hasher params pubkeys i n t` processes slot
indices `i, i+1, …, i+n-1` of the context whose parameters and OTS public
keys are given, storing `tree[2^H + idx]`, stopping at the first failing
hash. -/
def calc_leaves (hasher : Hasher) (params : LmsParameters) (pubkeys : Nat → List Nat) :
    Nat → Nat → (Nat → List Nat) → Except Int (Nat → List Nat)
  | _, 0, tree => .ok tree
  | i, n + 1, tree =>
    match create_merkle_leaf_value hasher params (pubkeys i)
        (MERKLE_TREE_INTERNAL_NODE_AM params.type + i) with
    | .error e => .error e
    | .ok v =>
      calc_leaves hasher params pubkeys (i + 1) n
        (tree_set tree (MERKLE_TREE_INTERNAL_NODE_AM params.type + i) v)

/-- The second loop of `calculate_merkle_tree` from `lms.c`: internal nodes in
descending order. `calc_internal hasher params r t` processes node indices
`r, r-1, …, 1`. -/
def calc_internal (hasher : Hasher) (params : LmsParameters) :
    Nat → (Nat → List Nat) → Except Int (Nat → List Nat)
  | 0, tree => .ok tree
  | r + 1, tree =>
    match create_merkle_internal_value hasher params
        (tree ((r + 1) * 2)) (tree ((r + 1) * 2 + 1)) (r + 1) with
    | .error e => .error e
    | .ok v => calc_internal hasher params r (tree_set tree (r + 1) v)

/-- `calculate_merkle_tree` from `lms.c`. `tree0` is the content of the
caller's uninitialised stack array before the call. -/
def calculate_merkle_tree (hasher : Hasher) (ctx : LmsPrivate)
    (tree0 : Nat → List Nat) : Except Int (Nat → List Nat) :=
  match calc_leaves hasher ctx.params ctx.ots_public_keys 0
      (MERKLE_TREE_INTERNAL_NODE_AM ctx.params.type) tree0 with
  | .error e => .error e
  | .ok t => calc_internal hasher ctx.params (MERKLE_TREE_INTERNAL_NODE_AM ctx.params.type - 1) t

/-- The loop of `get_merkle_path` from `lms.c`: sibling (`curr ^ 1`) node
values for `height = 0, 1, …`, each a 32-byte `memcpy` out of the tree. -/
def path_nodes (type : Nat) (t : Nat → List Nat) : Nat → Nat → List (List Nat)
  | _, 0 => []
  | curr, h + 1 =>
    bytesOf (t (curr ^^^ 1)) (MBEDTLS_LMS_M_NODE_BYTES type) ::
      path_nodes type t (curr / 2) h

/-- `get_merkle_path` from `lms.c`: builds the full tree, then copies the `H`
sibling nodes along the path from `leaf_node_id` to the root. -/
def get_merkle_path (hasher : Hasher) (ctx : LmsPrivate) (leaf_node_id : Nat)
    (tree0 : Nat → List Nat) : Except Int (List (List Nat)) :=
  match calculate_merkle_tree hasher ctx tree0 with
  | .error e => .error e
  | .ok t =>
    .ok (path_nodes ctx.params.type t leaf_node_id
      (MBEDTLS_LMS_H_TREE_HEIGHT ctx.params.type))

/-! ## Public-key lifecycle -/

/-- `mbedtls_lms_init_public` from `lms.c`: zeroizes the context. -/
def mbedtls_lms_init_public : LmsPublic :=
  { params := { type := 0, otstype := 0, I_key_identifier := List.replicate 16 0 }
    T_1_pub_key := List.replicate 32 0
    have_public_key := false }

/-- Result of `mbedtls_lms_import_public_key`: status plus the context after
the call (the C mutates `ctx` in place). -/
structure ImportResult where
  ret : Int
  ctx : LmsPublic
deriving Repr

/-- `mbedtls_lms_import_public_key` from `lms.c`. Note the size check uses the
context's current `params.type` and that `params.type` is stored before
`otstype` is validated, exactly as the C does. -/
def mbedtls_lms_import_public_key (ctx : LmsPublic) (key : Buf) (key_size : Nat) :
    ImportResult :=
  if key_size < MBEDTLS_LMS_PUBLIC_KEY_LEN ctx.params.type then
    ⟨MBEDTLS_ERR_LMS_BUFFER_TOO_SMALL, ctx⟩
  else
    let type := mbedtls_lms_network_bytes_to_unsigned_int MBEDTLS_LMS_TYPE_LEN
      (buf_read key PUBLIC_KEY_TYPE_OFFSET MBEDTLS_LMS_TYPE_LEN)
    if type ≠ MBEDTLS_LMS_SHA256_M32_H10 then
      ⟨MBEDTLS_ERR_LMS_BAD_INPUT_DATA, ctx⟩
    else
      let ctx1 : LmsPublic := { ctx with params := { ctx.params with type := type } }
      let otstype := mbedtls_lms_network_bytes_to_unsigned_int MBEDTLS_LMOTS_TYPE_LEN
        (buf_read key PUBLIC_KEY_OTSTYPE_OFFSET MBEDTLS_LMOTS_TYPE_LEN)
      if otstype ≠ MBEDTLS_LMOTS_SHA256_N32_W8 then
        ⟨MBEDTLS_ERR_LMS_BAD_INPUT_DATA, ctx1⟩
      else
        let ctx2 : LmsPublic := { ctx1 with params := { ctx1.params with otstype := otstype } }
        let ctx3 : LmsPublic := { ctx2 with params := { ctx2.params with
          I_key_identifier :=
            buf_read key PUBLIC_KEY_I_KEY_ID_OFFSET MBEDTLS_LMOTS_I_KEY_ID_LEN } }
        ⟨0, { ctx3 with
          T_1_pub_key :=
            buf_read key PUBLIC_KEY_ROOT_NODE_OFFSET (MBEDTLS_LMS_M_NODE_BYTES ctx3.params.type)
          have_public_key := true }⟩

/-- Result of `mbedtls_lms_export_public_key`: status, the key buffer after
the call and the value stored through `key_len` (`none` when not written). -/
structure ExportResult where
  ret : Int
  key : Buf
  key_len : Option Nat

/-- `mbedtls_lms_export_public_key` from `lms.c`. -/
def mbedtls_lms_export_public_key (ctx : LmsPublic) (key : Buf) (key_size : Nat) :
    ExportResult :=
  if key_size < MBEDTLS_LMS_PUBLIC_KEY_LEN ctx.params.type then
    ⟨MBEDTLS_ERR_LMS_BUFFER_TOO_SMALL, key, none⟩
  else if ctx.have_public_key = false then
    ⟨MBEDTLS_ERR_LMS_BAD_INPUT_DATA, key, none⟩
  else
    let k1 := buf_write key PUBLIC_KEY_TYPE_OFFSET
      (mbedtls_lms_unsigned_int_to_network_bytes ctx.params.type MBEDTLS_LMS_TYPE_LEN)
    let k2 := buf_write k1 PUBLIC_KEY_OTSTYPE_OFFSET
      (mbedtls_lms_unsigned_int_to_network_bytes ctx.params.otstype MBEDTLS_LMOTS_TYPE_LEN)
    let k3 := buf_write k2 PUBLIC_KEY_I_KEY_ID_OFFSET
      (bytesOf ctx.params.I_key_identifier MBEDTLS_LMOTS_I_KEY_ID_LEN)
    let k4 := buf_write k3 PUBLIC_KEY_ROOT_NODE_OFFSET
      (bytesOf ctx.T_1_pub_key (MBEDTLS_LMS_M_NODE_BYTES ctx.params.type))
    ⟨0, k4, some (MBEDTLS_LMS_PUBLIC_KEY_LEN ctx.params.type)⟩

/-! ## Verifier (`mbedtls_lms_verify`) -/

/-- The authentication-path climb loop of `mbedtls_lms_verify` from `lms.c`.
As in the C, the status of `create_merkle_internal_value` is ignored: on a
hash failure `Tc_candidate_root_node` keeps its previous contents. -/
def verify_climb (hasher : Hasher) (params : LmsParameters) (sig : Buf) :
    Nat → Nat → Nat → List Nat → List Nat
  | _, _, 0, tc => tc
  | height, curr_node_id, fuel + 1, tc =>
    let parent_node_id := curr_node_id / 2
    let sibling := buf_read sig
      (SIG_PATH_OFFSET params.otstype + height * MBEDTLS_LMS_M_NODE_BYTES params.type)
      (MBEDTLS_LMS_M_NODE_BYTES params.type)
    let res :=
      if curr_node_id % 2 = 1 then
        create_merkle_internal_value hasher params sibling tc parent_node_id
      else
        create_merkle_internal_value hasher params tc sibling parent_node_id
    let tc1 := match res with
      | .ok v => v
      | .error _ => tc
    verify_climb hasher params sig (height + 1) (curr_node_id / 2) fuel tc1

/-- `mbedtls_lms_verify` from `lms.c`. `tc0` is the content of the
uninitialised stack buffer `Tc_candidate_root_node` before the call; the
status of the leaf-hash call is ignored exactly as in the C. -/
def mbedtls_lms_verify (hasher : Hasher) (ots : OtsScheme) (ctx : LmsPublic)
    (msg : List Nat) (sig : Buf) (sig_size : Nat) (tc0 : List Nat) : Int :=
  if ctx.have_public_key = false then
    MBEDTLS_ERR_LMS_BAD_INPUT_DATA
  else if sig_size ≠ MBEDTLS_LMS_SIG_LEN ctx.params.type ctx.params.otstype then
    MBEDTLS_ERR_LMS_BAD_INPUT_DATA
  else if ctx.params.type ≠ MBEDTLS_LMS_SHA256_M32_H10 then
    MBEDTLS_ERR_LMS_BAD_INPUT_DATA
  else if ctx.params.otstype ≠ MBEDTLS_LMOTS_SHA256_N32_W8 then
    MBEDTLS_ERR_LMS_BAD_INPUT_DATA
  else if mbedtls_lms_network_bytes_to_unsigned_int MBEDTLS_LMOTS_TYPE_LEN
      (buf_read sig (SIG_OTS_SIG_OFFSET + MBEDTLS_LMOTS_SIG_TYPE_OFFSET)
        MBEDTLS_LMOTS_TYPE_LEN) ≠ MBEDTLS_LMOTS_SHA256_N32_W8 then
    MBEDTLS_ERR_LMS_VERIFY_FAILED
  else if mbedtls_lms_network_bytes_to_unsigned_int MBEDTLS_LMS_TYPE_LEN
      (buf_read sig (SIG_TYPE_OFFSET ctx.params.otstype) MBEDTLS_LMS_TYPE_LEN)
      ≠ MBEDTLS_LMS_SHA256_M32_H10 then
    MBEDTLS_ERR_LMS_VERIFY_FAILED
  else
    let q_leaf_identifier := mbedtls_lms_network_bytes_to_unsigned_int
      MBEDTLS_LMOTS_Q_LEAF_ID_LEN (buf_read sig SIG_Q_LEAF_ID_OFFSET MBEDTLS_LMOTS_Q_LEAF_ID_LEN)
    if q_leaf_identifier ≥ MERKLE_TREE_LEAF_NODE_AM ctx.params.type then
      MBEDTLS_ERR_LMS_VERIFY_FAILED
    else
      match ots.calc_candidate
          (bytesOf ctx.params.I_key_identifier MBEDTLS_LMOTS_I_KEY_ID_LEN)
          q_leaf_identifier ctx.params.otstype msg
          (buf_read sig SIG_OTS_SIG_OFFSET (MBEDTLS_LMOTS_SIG_LEN ctx.params.otstype)) with
      | .error e => e
      | .ok Kc =>
        let tc1 := match create_merkle_leaf_value hasher ctx.params Kc
            (MERKLE_TREE_INTERNAL_NODE_AM ctx.params.type + q_leaf_identifier) with
          | .ok v => v
          | .error _ => tc0
        let tcEnd := verify_climb hasher ctx.params sig 0
          (MERKLE_TREE_INTERNAL_NODE_AM ctx.params.type + q_leaf_identifier)
          (MBEDTLS_LMS_H_TREE_HEIGHT ctx.params.type) tc1
        if bytesOf tcEnd (MBEDTLS_LMS_M_NODE_BYTES ctx.params.type) =
            bytesOf ctx.T_1_pub_key (MBEDTLS_LMS_M_NODE_BYTES ctx.params.type) then 0
        else MBEDTLS_ERR_LMS_VERIFY_FAILED

/-! ## Private-key lifecycle and signer -/

/-- `mbedtls_lms_init_private` from `lms.c`: zeroizes the context. -/
def mbedtls_lms_init_private : LmsPrivate :=
  { params := { type := 0, otstype := 0, I_key_identifier := List.replicate 16 0 }
    ots_private_keys := fun _ => []
    ots_public_keys := fun _ => []
    q_next_usable_key := 0
    have_private_key := false }

/-- Result of `mbedtls_lms_generate_private_key`. -/
structure GenResult where
  ret : Int
  ctx : LmsPrivate

/-- The key-generation loop of `mbedtls_lms_generate_private_key` from
`lms.c`: `gen_slots ots otstype I seed i n privs pubs` processes slots
`i, …, i+n-1`, generating each OTS private key and deriving its public key,
stopping at the first failure. -/
def gen_slots (ots : OtsScheme) (otstype : Nat) (I seed : List Nat) :
    Nat → Nat → (Nat → List Nat) → (Nat → List Nat) →
    Except Int ((Nat → List Nat) × (Nat → List Nat))
  | _, 0, privs, pubs => .ok (privs, pubs)
  | i, n + 1, privs, pubs =>
    match ots.gen_private otstype I i seed with
    | .error e => .error e
    | .ok k =>
      match ots.calc_public k with
      | .error e => .error e
      | .ok p =>
        gen_slots ots otstype I seed (i + 1) n (tree_set privs i k) (tree_set pubs i p)

/-- `mbedtls_lms_generate_private_key` from `lms.c`. Note that, exactly as in
the C, the status returned by `f_rng` while drawing the 16-byte key
identifier `I` is discarded. On a slot failure the allocated slots are
released (freed memory is outside the state model) and `have_private_key`
stays unset. Allocation itself cannot fail in this model. -/
def mbedtls_lms_generate_private_key (ots : OtsScheme) (type otstype : Nat)
    (f_rng : RngT) (ctx : LmsPrivate) (seed : List Nat) : GenResult :=
  if type ≠ MBEDTLS_LMS_SHA256_M32_H10 then
    ⟨MBEDTLS_ERR_LMS_BAD_INPUT_DATA, ctx⟩
  else if otstype ≠ MBEDTLS_LMOTS_SHA256_N32_W8 then
    ⟨MBEDTLS_ERR_LMS_BAD_INPUT_DATA, ctx⟩
  else if ctx.have_private_key then
    ⟨MBEDTLS_ERR_LMS_BAD_INPUT_DATA, ctx⟩
  else
    let ctx1 : LmsPrivate := { ctx with params := { ctx.params with
      type := type, otstype := otstype, I_key_identifier := (f_rng MBEDTLS_LMOTS_I_KEY_ID_LEN).2 } }
    match gen_slots ots otstype ctx1.params.I_key_identifier seed 0
        (MERKLE_TREE_LEAF_NODE_AM ctx1.params.type) (fun _ => []) (fun _ => []) with
    | .error e => ⟨e, ctx1⟩
    | .ok (privs, pubs) =>
      ⟨0, { ctx1 with
        ots_private_keys := privs
        ots_public_keys := pubs
        q_next_usable_key := 0
        have_private_key := true }⟩

/-- Result of `mbedtls_lms_calculate_public_key`: status and the public
context after the call. -/
structure CalcPubResult where
  ret : Int
  ctx : LmsPublic

/-- `mbedtls_lms_calculate_public_key` from `lms.c`. `tree0` is the content of
the uninitialised stack tree array. -/
def mbedtls_lms_calculate_public_key (hasher : Hasher) (ctx : LmsPublic)
    (priv_ctx : LmsPrivate) (tree0 : Nat → List Nat) : CalcPubResult :=
  if priv_ctx.have_private_key = false then
    ⟨MBEDTLS_ERR_LMS_BAD_INPUT_DATA, ctx⟩
  else if priv_ctx.params.type ≠ MBEDTLS_LMS_SHA256_M32_H10 then
    ⟨MBEDTLS_ERR_LMS_BAD_INPUT_DATA, ctx⟩
  else if priv_ctx.params.otstype ≠ MBEDTLS_LMOTS_SHA256_N32_W8 then
    ⟨MBEDTLS_ERR_LMS_BAD_INPUT_DATA, ctx⟩
  else
    let ctx1 : LmsPublic := { ctx with params := priv_ctx.params }
    match calculate_merkle_tree hasher priv_ctx tree0 with
    | .error e => ⟨e, ctx1⟩
    | .ok t =>
      ⟨0, { ctx1 with
        T_1_pub_key := bytesOf (t 1) (MBEDTLS_LMS_M_NODE_BYTES ctx1.params.type)
        have_public_key := true }⟩

/-- Result of `mbedtls_lms_sign`: status, the private context and signature
buffer after the call, and the value stored through `sig_len` (`none` when
not written). -/
structure SignResult where
  ret : Int
  ctx : LmsPrivate
  sig : Buf
  sig_len : Option Nat

/-- `mbedtls_lms_sign` from `lms.c`. `tree0` is the content of the
uninitialised stack tree array inside `get_merkle_path`. The counter is
advanced before the OTS sign call and never rolled back, exactly as in the C. -/
def mbedtls_lms_sign (hasher : Hasher) (ots : OtsScheme) (f_rng : RngT)
    (ctx : LmsPrivate) (msg : List Nat) (sig : Buf) (sig_size : Nat)
    (tree0 : Nat → List Nat) : SignResult :=
  if ctx.have_private_key = false then
    ⟨MBEDTLS_ERR_LMS_BAD_INPUT_DATA, ctx, sig, none⟩
  else if sig_size < MBEDTLS_LMS_SIG_LEN ctx.params.type ctx.params.otstype then
    ⟨MBEDTLS_ERR_LMS_BUFFER_TOO_SMALL, ctx, sig, none⟩
  else if ctx.params.type ≠ MBEDTLS_LMS_SHA256_M32_H10 then
    ⟨MBEDTLS_ERR_LMS_BAD_INPUT_DATA, ctx, sig, none⟩
  else if ctx.params.otstype ≠ MBEDTLS_LMOTS_SHA256_N32_W8 then
    ⟨MBEDTLS_ERR_LMS_BAD_INPUT_DATA, ctx, sig, none⟩
  else if ctx.q_next_usable_key ≥ MERKLE_TREE_LEAF_NODE_AM ctx.params.type then
    ⟨MBEDTLS_ERR_LMS_OUT_OF_PRIVATE_KEYS, ctx, sig, none⟩
  else
    let q_leaf_identifier := ctx.q_next_usable_key
    let ctx1 : LmsPrivate := { ctx with q_next_usable_key := q_leaf_identifier + 1 }
    match ots.ots_sign (ctx1.ots_private_keys q_leaf_identifier) f_rng msg with
    | .error e => ⟨e, ctx1, sig, none⟩
    | .ok s =>
      let sig1 := buf_write sig SIG_OTS_SIG_OFFSET s
      let sig2 := buf_write sig1 (SIG_TYPE_OFFSET ctx1.params.otstype)
        (mbedtls_lms_unsigned_int_to_network_bytes ctx1.params.type MBEDTLS_LMS_TYPE_LEN)
      let sig3 := buf_write sig2 SIG_Q_LEAF_ID_OFFSET
        (mbedtls_lms_unsigned_int_to_network_bytes q_leaf_identifier MBEDTLS_LMOTS_Q_LEAF_ID_LEN)
      match get_merkle_path hasher ctx1
          (MERKLE_TREE_INTERNAL_NODE_AM ctx1.params.type + q_leaf_identifier) tree0 with
      | .error e => ⟨e, ctx1, sig3, none⟩
      | .ok nodes =>
        ⟨0, ctx1,
          buf_write sig3 (SIG_PATH_OFFSET ctx1.params.otstype) nodes.flatten,
          some (MBEDTLS_LMS_SIG_LEN ctx1.params.type ctx1.params.otstype)⟩

/-! ## Concrete collaborator instances used by the closed theorems -/

/-- A 32-byte all-zero node value. -/
def zeros32 : List Nat := List.replicate 32 0

/-- A hasher that always succeeds with a fixed 32-byte output. -/
def hasher_const : Hasher := fun _ => some zeros32

/-- A hasher whose every invocation fails (models a broken PSA backend). -/
def hasher_fail : Hasher := fun _ => none

/-- An RNG callback that succeeds and fills the buffer with ones. -/
def rng_ok : RngT := fun n => (0, List.replicate n 1)

/-- An RNG callback that reports failure on every call. -/
def rng_fail : RngT := fun n => (-1, List.replicate n 0)

/-- A toy LMOTS collaborator satisfying the spec's §6.4 interface contract:
the signature embeds the type identifier followed by the public key, and the
candidate recovery reads the public key back out of the signature. -/
def ots_toy : OtsScheme :=
  { gen_private := fun _ _ q _ => .ok [q % 256]
    calc_public := fun k => .ok (bytesOf k 32)
    ots_sign := fun k _ _ =>
      .ok (mbedtls_lms_unsigned_int_to_network_bytes MBEDTLS_LMOTS_SHA256_N32_W8 4 ++
        bytesOf k 32 ++ List.replicate 1100 0)
    calc_candidate := fun _ _ _ _ s => .ok ((s.drop 4).take 32) }

/-- The toy LMOTS collaborator with a failing signing operation. -/
def ots_fail_sign : OtsScheme :=
  { ots_toy with ots_sign := fun _ _ _ => .error (-0x002D) }

/-- A hasher succeeds on every input with a 32-byte digest (the PSA backend
is functioning). -/
def HasherTotal (hasher : Hasher) : Prop :=
  ∀ m, ∃ v, hasher m = some v ∧ v.length = 32

/-- Modelled from the spec (§6.4, §4.5.2 step 7 and RFC 8554): functional
correctness of the LMOTS collaborator. Key generation and public-key
derivation succeed; a produced signature has the documented length, starts
with the big-endian `ots_type` identifier, and candidate recovery on it
returns the signer's OTS public key. -/
def OtsValid (ots : OtsScheme) : Prop :=
  ∀ I q seed, ∃ k, ots.gen_private MBEDTLS_LMOTS_SHA256_N32_W8 I q seed = .ok k ∧
    ∃ p, ots.calc_public k = .ok p ∧ p.length = 32 ∧
      ∀ rng msg, ∃ s, ots.ots_sign k rng msg = .ok s ∧
        s.length = MBEDTLS_LMOTS_SIG_LEN MBEDTLS_LMOTS_SHA256_N32_W8 ∧
        s.take 4 = mbedtls_lms_unsigned_int_to_network_bytes MBEDTLS_LMOTS_SHA256_N32_W8 4 ∧
        ots.calc_candidate I q MBEDTLS_LMOTS_SHA256_N32_W8 msg s = .ok p

/-- A concrete populated private context used by the closed theorems. -/
def priv_demo : LmsPrivate :=
  { params := { type := 0x6, otstype := 0x4, I_key_identifier := List.replicate 16 1 }
    ots_private_keys := fun _ => [0]
    ots_public_keys := fun _ => zeros32
    q_next_usable_key := 0
    have_private_key := true }

/-- A concrete public context whose stored root happens to coincide with the
stack garbage used below. -/
def pub_demo : LmsPublic :=
  { params := { type := 0x6, otstype := 0x4, I_key_identifier := List.replicate 16 1 }
    T_1_pub_key := List.replicate 32 7
    have_public_key := true }

/-- A concrete signature buffer: well-formed type fields (`ots_type = 4` at
the OTS subrecord, `lms_type = 6` at the type offset), leaf index `q = 0`,
all other bytes zero. -/
def sig_demo : Buf :=
  buf_write
    (buf_write (fun _ => 0) SIG_OTS_SIG_OFFSET
      (mbedtls_lms_unsigned_int_to_network_bytes MBEDTLS_LMOTS_SHA256_N32_W8 4))
    (SIG_TYPE_OFFSET MBEDTLS_LMOTS_SHA256_N32_W8)
    (mbedtls_lms_unsigned_int_to_network_bytes MBEDTLS_LMS_SHA256_M32_H10 4)

/-! ## General lemmas: codec and buffers -/

theorem unsigned_int_to_network_bytes_length (val len : Nat) :
    (mbedtls_lms_unsigned_int_to_network_bytes val len).length = len := by
  induction len generalizing val with
  | zero => rfl
  | succ n ih => simp [mbedtls_lms_unsigned_int_to_network_bytes, ih]

theorem bytesOf_length (l : List Nat) (n : Nat) : (bytesOf l n).length = n := by
  simp [bytesOf]

theorem bytesOf_eq_self {l : List Nat} {n : Nat} (h : l.length = n) : bytesOf l n = l := by
  subst h
  apply List.ext_getElem
  · simp [bytesOf]
  · intro i h1 h2
    simp [bytesOf, List.getD_eq_getElem, h2]

theorem bytesOf_idem (l : List Nat) (n : Nat) : bytesOf (bytesOf l n) n = bytesOf l n :=
  bytesOf_eq_self (bytesOf_length l n)

theorem network_bytes_to_unsigned_int_of_length {bytes : List Nat} {len : Nat}
    (h : bytes.length = len) :
    mbedtls_lms_network_bytes_to_unsigned_int len bytes =
      bytes.foldl (fun acc b => acc * 256 + b) 0 := by
  unfold mbedtls_lms_network_bytes_to_unsigned_int
  rw [bytesOf_eq_self h]

theorem foldl_unsigned_int_to_network_bytes (val len : Nat) :
    (mbedtls_lms_unsigned_int_to_network_bytes val len).foldl
      (fun acc b => acc * 256 + b) 0 = val % 256 ^ len := by
  induction len generalizing val with
  | zero => simp [mbedtls_lms_unsigned_int_to_network_bytes, Nat.mod_one]
  | succ n ih =>
    rw [mbedtls_lms_unsigned_int_to_network_bytes, List.foldl_append]
    simp only [List.foldl_cons, List.foldl_nil, ih]
    rw [pow_succ, mul_comm (256 ^ n) 256, Nat.mod_mul]
    omega

theorem network_roundtrip (val len : Nat) (h : val < 256 ^ len) :
    mbedtls_lms_network_bytes_to_unsigned_int len
      (mbedtls_lms_unsigned_int_to_network_bytes val len) = val := by
  rw [network_bytes_to_unsigned_int_of_length (unsigned_int_to_network_bytes_length val len),
    foldl_unsigned_int_to_network_bytes, Nat.mod_eq_of_lt h]

theorem buf_read_length (b : Buf) (off len : Nat) : (buf_read b off len).length = len := by
  simp [buf_read]

theorem buf_read_write_inside (b : Buf) (off : Nat) (data : List Nat) (k n : Nat)
    (h : k + n ≤ data.length) :
    buf_read (buf_write b off data) (off + k) n = (data.drop k).take n := by
  apply List.ext_getElem
  · simp [buf_read]
    omega
  · intro i h1 h2
    have hi : i < n := by simpa [buf_read] using h1
    have hki : k + i < data.length := by omega
    have hcond : off ≤ off + k + i ∧ off + k + i < off + data.length := by omega
    simp only [buf_read, List.getElem_map, List.getElem_range, buf_write]
    rw [if_pos hcond]
    have hoff : off + k + i - off = k + i := by omega
    rw [hoff, List.getD_eq_getElem _ _ hki]
    rw [List.getElem_take, List.getElem_drop]

theorem buf_read_write_self (b : Buf) (off : Nat) (data : List Nat) :
    buf_read (buf_write b off data) off data.length = data := by
  have h := buf_read_write_inside b off data 0 data.length (by omega)
  simpa using h

theorem buf_read_write_of_disjoint (b : Buf) (off : Nat) (data : List Nat)
    (off2 n : Nat) (h : off2 + n ≤ off ∨ off + data.length ≤ off2) :
    buf_read (buf_write b off data) off2 n = buf_read b off2 n := by
  apply List.ext_getElem
  · simp [buf_read]
  · intro i h1 h2
    have hi : i < n := by simpa [buf_read] using h1
    have hcond : ¬(off ≤ off2 + i ∧ off2 + i < off + data.length) := by omega
    simp [buf_read, buf_write, hcond]

/-! ## Numeric values of the header-derived macros -/

theorem sig_len_eq (a b : Nat) : MBEDTLS_LMS_SIG_LEN a b = 1464 := by
  norm_num [MBEDTLS_LMS_SIG_LEN, MBEDTLS_LMOTS_Q_LEAF_ID_LEN, MBEDTLS_LMOTS_SIG_LEN,
    MBEDTLS_LMS_TYPE_LEN, MBEDTLS_LMS_H_TREE_HEIGHT, MBEDTLS_LMS_M_NODE_BYTES]

theorem pub_key_len_eq (a : Nat) : MBEDTLS_LMS_PUBLIC_KEY_LEN a = 56 := by
  norm_num [MBEDTLS_LMS_PUBLIC_KEY_LEN, MBEDTLS_LMS_TYPE_LEN, MBEDTLS_LMOTS_TYPE_LEN,
    MBEDTLS_LMOTS_I_KEY_ID_LEN, MBEDTLS_LMS_M_NODE_BYTES]

theorem leaf_am_eq (a : Nat) : MERKLE_TREE_LEAF_NODE_AM a = 1024 := by
  norm_num [MERKLE_TREE_LEAF_NODE_AM, MBEDTLS_LMS_H_TREE_HEIGHT]

theorem internal_am_eq (a : Nat) : MERKLE_TREE_INTERNAL_NODE_AM a = 1024 := by
  norm_num [MERKLE_TREE_INTERNAL_NODE_AM, MBEDTLS_LMS_H_TREE_HEIGHT]

theorem node_am_eq (a : Nat) : MERKLE_TREE_NODE_AM a = 2048 := by
  norm_num [MERKLE_TREE_NODE_AM, MBEDTLS_LMS_H_TREE_HEIGHT]

theorem sig_type_offset_eq (o : Nat) : SIG_TYPE_OFFSET o = 1140 := by
  norm_num [SIG_TYPE_OFFSET, SIG_OTS_SIG_OFFSET, SIG_Q_LEAF_ID_OFFSET,
    MBEDTLS_LMOTS_Q_LEAF_ID_LEN, MBEDTLS_LMOTS_SIG_LEN]

theorem sig_path_offset_eq (o : Nat) : SIG_PATH_OFFSET o = 1144 := by
  norm_num [SIG_PATH_OFFSET, sig_type_offset_eq, MBEDTLS_LMS_TYPE_LEN]

theorem sig_ots_sig_offset_eq : SIG_OTS_SIG_OFFSET = 4 := rfl

theorem m_node_bytes_eq (a : Nat) : MBEDTLS_LMS_M_NODE_BYTES a = 32 := rfl

theorem h_height_eq (a : Nat) : MBEDTLS_LMS_H_TREE_HEIGHT a = 10 := rfl

theorem lmots_sig_len_eq (o : Nat) : MBEDTLS_LMOTS_SIG_LEN o = 1136 := rfl

/-! ## Claim C6 -/

/-- C6: for every input buffer shorter than 56 bytes,
`mbedtls_lms_import_public_key` returns BufferTooSmall for every public
context (in particular a freshly initialised one), leaves the context
unchanged, and hence leaves `have_public_key` unset for a fresh context. -/
theorem c6_import_short_buffer (ctx : LmsPublic) (key : Buf) (key_size : Nat)
    (h : key_size < 56) :
    (mbedtls_lms_import_public_key ctx key key_size).ret =
        MBEDTLS_ERR_LMS_BUFFER_TOO_SMALL ∧
    (mbedtls_lms_import_public_key ctx key key_size).ctx = ctx ∧
    (mbedtls_lms_import_public_key mbedtls_lms_init_public key key_size).ctx.have_public_key
      = false := by
  have h56 : ∀ t, MBEDTLS_LMS_PUBLIC_KEY_LEN t = 56 := fun _ => rfl
  refine ⟨?_, ?_, ?_⟩ <;> simp [mbedtls_lms_import_public_key, h56, h, mbedtls_lms_init_public]

/-- Witness for C6: a concrete 10-byte import attempt. -/
theorem c6_import_short_buffer_witness :
    (mbedtls_lms_import_public_key mbedtls_lms_init_public (fun _ => 0) 10).ret =
        MBEDTLS_ERR_LMS_BUFFER_TOO_SMALL ∧
    (mbedtls_lms_import_public_key mbedtls_lms_init_public (fun _ => 0) 10).ctx =
        mbedtls_lms_init_public ∧
    (mbedtls_lms_import_public_key mbedtls_lms_init_public (fun _ => 0) 10).ctx.have_public_key
      = false :=
  c6_import_short_buffer mbedtls_lms_init_public (fun _ => 0) 10 (by decide)

/-! ## Claim C10 -/

/-- C10: when `mbedtls_lms_import_public_key` rejects a large-enough buffer
because its `ots_type` field is not LMOTS_SHA256_N32_W8, it returns BadInput
with `params.type` already overwritten by the decoded `lms_type` value (the
failing call is not atomic on the context), while `have_public_key` is never
changed by any error return. -/
theorem c10_import_nonatomic_on_otstype_reject (ctx : LmsPublic) (key : Buf)
    (key_size : Nat)
    (hsize : ¬ key_size < MBEDTLS_LMS_PUBLIC_KEY_LEN ctx.params.type)
    (htype : mbedtls_lms_network_bytes_to_unsigned_int MBEDTLS_LMS_TYPE_LEN
      (buf_read key PUBLIC_KEY_TYPE_OFFSET MBEDTLS_LMS_TYPE_LEN) =
        MBEDTLS_LMS_SHA256_M32_H10)
    (hots : mbedtls_lms_network_bytes_to_unsigned_int MBEDTLS_LMOTS_TYPE_LEN
      (buf_read key PUBLIC_KEY_OTSTYPE_OFFSET MBEDTLS_LMOTS_TYPE_LEN) ≠
        MBEDTLS_LMOTS_SHA256_N32_W8) :
    (mbedtls_lms_import_public_key ctx key key_size).ret =
        MBEDTLS_ERR_LMS_BAD_INPUT_DATA ∧
    (mbedtls_lms_import_public_key ctx key key_size).ctx.params.type =
        MBEDTLS_LMS_SHA256_M32_H10 ∧
    (mbedtls_lms_import_public_key ctx key key_size).ctx.have_public_key =
        ctx.have_public_key ∧
    (∀ (c : LmsPublic) (k : Buf) (s : Nat),
      (mbedtls_lms_import_public_key c k s).ret ≠ 0 →
      (mbedtls_lms_import_public_key c k s).ctx.have_public_key = c.have_public_key) := by
  refine ⟨?_, ?_, ?_, ?_⟩
  · simp [mbedtls_lms_import_public_key, hsize, htype, hots]
  · simp [mbedtls_lms_import_public_key, hsize, htype, hots]
  · simp [mbedtls_lms_import_public_key, hsize, htype, hots]
  · intro c k s hret
    by_cases hS : s < MBEDTLS_LMS_PUBLIC_KEY_LEN c.params.type
    · simp [mbedtls_lms_import_public_key, hS]
    · by_cases hT : mbedtls_lms_network_bytes_to_unsigned_int MBEDTLS_LMS_TYPE_LEN
        (buf_read k PUBLIC_KEY_TYPE_OFFSET MBEDTLS_LMS_TYPE_LEN) = MBEDTLS_LMS_SHA256_M32_H10
      · by_cases hO : mbedtls_lms_network_bytes_to_unsigned_int MBEDTLS_LMOTS_TYPE_LEN
          (buf_read k PUBLIC_KEY_OTSTYPE_OFFSET MBEDTLS_LMOTS_TYPE_LEN) =
            MBEDTLS_LMOTS_SHA256_N32_W8
        · exact absurd (by simp [mbedtls_lms_import_public_key, hS, hT, hO]) hret
        · simp [mbedtls_lms_import_public_key, hS, hT, hO]
      · simp [mbedtls_lms_import_public_key, hS, hT]

/-- Witness for C10: a concrete 56-byte buffer with `lms_type = 6` and
`ots_type = 3`. -/
theorem c10_import_nonatomic_witness :
    (mbedtls_lms_import_public_key mbedtls_lms_init_public
        (buf_write (fun _ => 0) 3 [6, 0, 0, 0, 3]) 56).ret =
        MBEDTLS_ERR_LMS_BAD_INPUT_DATA ∧
    (mbedtls_lms_import_public_key mbedtls_lms_init_public
        (buf_write (fun _ => 0) 3 [6, 0, 0, 0, 3]) 56).ctx.params.type =
        MBEDTLS_LMS_SHA256_M32_H10 ∧
    (mbedtls_lms_import_public_key mbedtls_lms_init_public
        (buf_write (fun _ => 0) 3 [6, 0, 0, 0, 3]) 56).ctx.have_public_key =
        mbedtls_lms_init_public.have_public_key ∧
    (∀ (c : LmsPublic) (k : Buf) (s : Nat),
      (mbedtls_lms_import_public_key c k s).ret ≠ 0 →
      (mbedtls_lms_import_public_key c k s).ctx.have_public_key = c.have_public_key) :=
  c10_import_nonatomic_on_otstype_reject mbedtls_lms_init_public
    (buf_write (fun _ => 0) 3 [6, 0, 0, 0, 3]) 56
    (by decide) (by decide) (by decide)

/-! ## Claim C4 -/

/-- C4: `mbedtls_lms_verify` returns BadInput when `have_public_key` is
unset, when `sig_size` differs (in either direction) from 1464, or when the
parameter pair is not (LMS_SHA256_M32_H10, LMOTS_SHA256_N32_W8); and it
returns VerifyFailed when the `ots_type` embedded in the OTS signature
subrecord is not 4, when the `lms_type` field at the signature's type offset
is not 6, or when the decoded leaf index is at least 1024 — the checks being
performed in this order (each later outcome presupposes all earlier checks
passed). -/
theorem c4_verify_check_order (hasher : Hasher) (ots : OtsScheme) (ctx : LmsPublic)
    (msg : List Nat) (sig : Buf) (sig_size : Nat) (tc0 : List Nat) :
    (ctx.have_public_key = false →
      mbedtls_lms_verify hasher ots ctx msg sig sig_size tc0 =
        MBEDTLS_ERR_LMS_BAD_INPUT_DATA) ∧
    (ctx.have_public_key = true → sig_size ≠ 1464 →
      mbedtls_lms_verify hasher ots ctx msg sig sig_size tc0 =
        MBEDTLS_ERR_LMS_BAD_INPUT_DATA) ∧
    (ctx.have_public_key = true → sig_size = 1464 →
      ¬(ctx.params.type = MBEDTLS_LMS_SHA256_M32_H10 ∧
        ctx.params.otstype = MBEDTLS_LMOTS_SHA256_N32_W8) →
      mbedtls_lms_verify hasher ots ctx msg sig sig_size tc0 =
        MBEDTLS_ERR_LMS_BAD_INPUT_DATA) ∧
    (ctx.have_public_key = true → sig_size = 1464 →
      ctx.params.type = MBEDTLS_LMS_SHA256_M32_H10 →
      ctx.params.otstype = MBEDTLS_LMOTS_SHA256_N32_W8 →
      mbedtls_lms_network_bytes_to_unsigned_int MBEDTLS_LMOTS_TYPE_LEN
        (buf_read sig (SIG_OTS_SIG_OFFSET + MBEDTLS_LMOTS_SIG_TYPE_OFFSET)
          MBEDTLS_LMOTS_TYPE_LEN) ≠ MBEDTLS_LMOTS_SHA256_N32_W8 →
      mbedtls_lms_verify hasher ots ctx msg sig sig_size tc0 =
        MBEDTLS_ERR_LMS_VERIFY_FAILED) ∧
    (ctx.have_public_key = true → sig_size = 1464 →
      ctx.params.type = MBEDTLS_LMS_SHA256_M32_H10 →
      ctx.params.otstype = MBEDTLS_LMOTS_SHA256_N32_W8 →
      mbedtls_lms_network_bytes_to_unsigned_int MBEDTLS_LMOTS_TYPE_LEN
        (buf_read sig (SIG_OTS_SIG_OFFSET + MBEDTLS_LMOTS_SIG_TYPE_OFFSET)
          MBEDTLS_LMOTS_TYPE_LEN) = MBEDTLS_LMOTS_SHA256_N32_W8 →
      mbedtls_lms_network_bytes_to_unsigned_int MBEDTLS_LMS_TYPE_LEN
        (buf_read sig (SIG_TYPE_OFFSET ctx.params.otstype) MBEDTLS_LMS_TYPE_LEN) ≠
        MBEDTLS_LMS_SHA256_M32_H10 →
      mbedtls_lms_verify hasher ots ctx msg sig sig_size tc0 =
        MBEDTLS_ERR_LMS_VERIFY_FAILED) ∧
    (ctx.have_public_key = true → sig_size = 1464 →
      ctx.params.type = MBEDTLS_LMS_SHA256_M32_H10 →
      ctx.params.otstype = MBEDTLS_LMOTS_SHA256_N32_W8 →
      mbedtls_lms_network_bytes_to_unsigned_int MBEDTLS_LMOTS_TYPE_LEN
        (buf_read sig (SIG_OTS_SIG_OFFSET + MBEDTLS_LMOTS_SIG_TYPE_OFFSET)
          MBEDTLS_LMOTS_TYPE_LEN) = MBEDTLS_LMOTS_SHA256_N32_W8 →
      mbedtls_lms_network_bytes_to_unsigned_int MBEDTLS_LMS_TYPE_LEN
        (buf_read sig (SIG_TYPE_OFFSET ctx.params.otstype) MBEDTLS_LMS_TYPE_LEN) =
        MBEDTLS_LMS_SHA256_M32_H10 →
      1024 ≤ mbedtls_lms_network_bytes_to_unsigned_int MBEDTLS_LMOTS_Q_LEAF_ID_LEN
        (buf_read sig SIG_Q_LEAF_ID_OFFSET MBEDTLS_LMOTS_Q_LEAF_ID_LEN) →
      mbedtls_lms_verify hasher ots ctx msg sig sig_size tc0 =
        MBEDTLS_ERR_LMS_VERIFY_FAILED) := by
  refine ⟨?_, ?_, ?_, ?_, ?_, ?_⟩
  · intro h1
    simp [mbedtls_lms_verify, h1]
  · intro h1 h2
    simp [mbedtls_lms_verify, h1, sig_len_eq, h2]
  · intro h1 h2 h3
    by_cases ht : ctx.params.type = MBEDTLS_LMS_SHA256_M32_H10
    · have ho : ctx.params.otstype ≠ MBEDTLS_LMOTS_SHA256_N32_W8 := by tauto
      simp [mbedtls_lms_verify, h1, sig_len_eq, h2, ht, ho]
    · simp [mbedtls_lms_verify, h1, sig_len_eq, h2, ht]
  · intro h1 h2 h3 h4 h5
    simp [mbedtls_lms_verify, h1, sig_len_eq, h2, h3, h4, h5]
  · intro h1 h2 h3 h4 h5 h6
    simp only [h4, sig_type_offset_eq] at h6
    simp [mbedtls_lms_verify, h1, sig_len_eq, sig_type_offset_eq, h2, h3, h4, h5, h6]
  · intro h1 h2 h3 h4 h5 h6 h7
    simp only [h4, sig_type_offset_eq] at h6
    simp [mbedtls_lms_verify, h1, sig_len_eq, sig_type_offset_eq, leaf_am_eq,
      h2, h3, h4, h5, h6, h7]

/-- Witness for C4: a fresh (un-imported) context and an empty signature. -/
theorem c4_verify_check_order_witness :
    (mbedtls_lms_init_public.have_public_key = false →
      mbedtls_lms_verify hasher_const ots_toy mbedtls_lms_init_public [] (fun _ => 0) 0 [] =
        MBEDTLS_ERR_LMS_BAD_INPUT_DATA) ∧
    (mbedtls_lms_init_public.have_public_key = true → (0 : Nat) ≠ 1464 →
      mbedtls_lms_verify hasher_const ots_toy mbedtls_lms_init_public [] (fun _ => 0) 0 [] =
        MBEDTLS_ERR_LMS_BAD_INPUT_DATA) ∧
    (mbedtls_lms_init_public.have_public_key = true → (0 : Nat) = 1464 →
      ¬(mbedtls_lms_init_public.params.type = MBEDTLS_LMS_SHA256_M32_H10 ∧
        mbedtls_lms_init_public.params.otstype = MBEDTLS_LMOTS_SHA256_N32_W8) →
      mbedtls_lms_verify hasher_const ots_toy mbedtls_lms_init_public [] (fun _ => 0) 0 [] =
        MBEDTLS_ERR_LMS_BAD_INPUT_DATA) ∧
    (mbedtls_lms_init_public.have_public_key = true → (0 : Nat) = 1464 →
      mbedtls_lms_init_public.params.type = MBEDTLS_LMS_SHA256_M32_H10 →
      mbedtls_lms_init_public.params.otstype = MBEDTLS_LMOTS_SHA256_N32_W8 →
      mbedtls_lms_network_bytes_to_unsigned_int MBEDTLS_LMOTS_TYPE_LEN
        (buf_read (fun _ => 0) (SIG_OTS_SIG_OFFSET + MBEDTLS_LMOTS_SIG_TYPE_OFFSET)
          MBEDTLS_LMOTS_TYPE_LEN) ≠ MBEDTLS_LMOTS_SHA256_N32_W8 →
      mbedtls_lms_verify hasher_const ots_toy mbedtls_lms_init_public [] (fun _ => 0) 0 [] =
        MBEDTLS_ERR_LMS_VERIFY_FAILED) ∧
    (mbedtls_lms_init_public.have_public_key = true → (0 : Nat) = 1464 →
      mbedtls_lms_init_public.params.type = MBEDTLS_LMS_SHA256_M32_H10 →
      mbedtls_lms_init_public.params.otstype = MBEDTLS_LMOTS_SHA256_N32_W8 →
      mbedtls_lms_network_bytes_to_unsigned_int MBEDTLS_LMOTS_TYPE_LEN
        (buf_read (fun _ => 0) (SIG_OTS_SIG_OFFSET + MBEDTLS_LMOTS_SIG_TYPE_OFFSET)
          MBEDTLS_LMOTS_TYPE_LEN) = MBEDTLS_LMOTS_SHA256_N32_W8 →
      mbedtls_lms_network_bytes_to_unsigned_int MBEDTLS_LMS_TYPE_LEN
        (buf_read (fun _ => 0) (SIG_TYPE_OFFSET mbedtls_lms_init_public.params.otstype)
          MBEDTLS_LMS_TYPE_LEN) ≠ MBEDTLS_LMS_SHA256_M32_H10 →
      mbedtls_lms_verify hasher_const ots_toy mbedtls_lms_init_public [] (fun _ => 0) 0 [] =
        MBEDTLS_ERR_LMS_VERIFY_FAILED) ∧
    (mbedtls_lms_init_public.have_public_key = true → (0 : Nat) = 1464 →
      mbedtls_lms_init_public.params.type = MBEDTLS_LMS_SHA256_M32_H10 →
      mbedtls_lms_init_public.params.otstype = MBEDTLS_LMOTS_SHA256_N32_W8 →
      mbedtls_lms_network_bytes_to_unsigned_int MBEDTLS_LMOTS_TYPE_LEN
        (buf_read (fun _ => 0) (SIG_OTS_SIG_OFFSET + MBEDTLS_LMOTS_SIG_TYPE_OFFSET)
          MBEDTLS_LMOTS_TYPE_LEN) = MBEDTLS_LMOTS_SHA256_N32_W8 →
      mbedtls_lms_network_bytes_to_unsigned_int MBEDTLS_LMS_TYPE_LEN
        (buf_read (fun _ => 0) (SIG_TYPE_OFFSET mbedtls_lms_init_public.params.otstype)
          MBEDTLS_LMS_TYPE_LEN) = MBEDTLS_LMS_SHA256_M32_H10 →
      1024 ≤ mbedtls_lms_network_bytes_to_unsigned_int MBEDTLS_LMOTS_Q_LEAF_ID_LEN
        (buf_read (fun _ => 0) SIG_Q_LEAF_ID_OFFSET MBEDTLS_LMOTS_Q_LEAF_ID_LEN) →
      mbedtls_lms_verify hasher_const ots_toy mbedtls_lms_init_public [] (fun _ => 0) 0 [] =
        MBEDTLS_ERR_LMS_VERIFY_FAILED) :=
  c4_verify_check_order hasher_const ots_toy mbedtls_lms_init_public [] (fun _ => 0) 0 []

/-! ## Helper lemmas about `mbedtls_lms_sign` and the counter -/

theorem sign_out_of_keys (hasher : Hasher) (ots : OtsScheme) (f_rng : RngT)
    (ctx : LmsPrivate) (msg : List Nat) (sig : Buf) (sig_size : Nat)
    (tree0 : Nat → List Nat)
    (h1 : ctx.have_private_key = true) (h2 : ¬ sig_size < 1464)
    (h3 : ctx.params.type = MBEDTLS_LMS_SHA256_M32_H10)
    (h4 : ctx.params.otstype = MBEDTLS_LMOTS_SHA256_N32_W8)
    (h5 : 1024 ≤ ctx.q_next_usable_key) :
    mbedtls_lms_sign hasher ots f_rng ctx msg sig sig_size tree0 =
      ⟨MBEDTLS_ERR_LMS_OUT_OF_PRIVATE_KEYS, ctx, sig, none⟩ := by
  unfold mbedtls_lms_sign
  rw [if_neg (by simp [h1]), if_neg (by rw [sig_len_eq]; exact h2),
    if_neg (by simp [h3]), if_neg (by simp [h4]),
    if_pos (by rw [ge_iff_le, leaf_am_eq]; exact h5)]

theorem sign_advances (hasher : Hasher) (ots : OtsScheme) (f_rng : RngT)
    (ctx : LmsPrivate) (msg : List Nat) (sig : Buf) (sig_size : Nat)
    (tree0 : Nat → List Nat)
    (h1 : ctx.have_private_key = true) (h2 : ¬ sig_size < 1464)
    (h3 : ctx.params.type = MBEDTLS_LMS_SHA256_M32_H10)
    (h4 : ctx.params.otstype = MBEDTLS_LMOTS_SHA256_N32_W8)
    (h5 : ctx.q_next_usable_key < 1024) :
    (mbedtls_lms_sign hasher ots f_rng ctx msg sig sig_size tree0).ctx.q_next_usable_key =
      ctx.q_next_usable_key + 1 := by
  unfold mbedtls_lms_sign
  rw [if_neg (by simp [h1]), if_neg (by rw [sig_len_eq]; exact h2),
    if_neg (by simp [h3]), if_neg (by simp [h4]),
    if_neg (by rw [ge_iff_le, leaf_am_eq]; omega)]
  dsimp only
  split
  · simp
  · split <;> simp

theorem sign_early_frame (hasher : Hasher) (ots : OtsScheme) (f_rng : RngT)
    (ctx : LmsPrivate) (msg : List Nat) (sig : Buf) (sig_size : Nat)
    (tree0 : Nat → List Nat)
    (h : ctx.have_private_key = false ∨ sig_size < 1464 ∨
      ctx.params.type ≠ MBEDTLS_LMS_SHA256_M32_H10 ∨
      ctx.params.otstype ≠ MBEDTLS_LMOTS_SHA256_N32_W8 ∨
      1024 ≤ ctx.q_next_usable_key) :
    (mbedtls_lms_sign hasher ots f_rng ctx msg sig sig_size tree0).ctx = ctx ∧
    (mbedtls_lms_sign hasher ots f_rng ctx msg sig sig_size tree0).ret ≠ 0 := by
  unfold mbedtls_lms_sign
  split_ifs with h1 h2 h3 h4 h5
  · exact ⟨rfl, by norm_num [MBEDTLS_ERR_LMS_BAD_INPUT_DATA]⟩
  · exact ⟨rfl, by norm_num [MBEDTLS_ERR_LMS_BUFFER_TOO_SMALL]⟩
  · exact ⟨rfl, by norm_num [MBEDTLS_ERR_LMS_BAD_INPUT_DATA]⟩
  · exact ⟨rfl, by norm_num [MBEDTLS_ERR_LMS_BAD_INPUT_DATA]⟩
  · exact ⟨rfl, by norm_num [MBEDTLS_ERR_LMS_OUT_OF_PRIVATE_KEYS]⟩
  · exfalso
    rw [sig_len_eq] at h2
    rw [ge_iff_le, leaf_am_eq] at h5
    rcases h with h | h | h | h | h <;> simp_all

theorem sign_success_q (hasher : Hasher) (ots : OtsScheme) (f_rng : RngT)
    (ctx : LmsPrivate) (msg : List Nat) (sig : Buf) (sig_size : Nat)
    (tree0 : Nat → List Nat)
    (hret : (mbedtls_lms_sign hasher ots f_rng ctx msg sig sig_size tree0).ret = 0) :
    (mbedtls_lms_sign hasher ots f_rng ctx msg sig sig_size tree0).ctx.q_next_usable_key =
      ctx.q_next_usable_key + 1 := by
  unfold mbedtls_lms_sign at hret ⊢
  split_ifs at hret ⊢ with h1 h2 h3 h4 h5
  · norm_num [MBEDTLS_ERR_LMS_BAD_INPUT_DATA] at hret
  · norm_num [MBEDTLS_ERR_LMS_BUFFER_TOO_SMALL] at hret
  · norm_num [MBEDTLS_ERR_LMS_BAD_INPUT_DATA] at hret
  · norm_num [MBEDTLS_ERR_LMS_BAD_INPUT_DATA] at hret
  · norm_num [MBEDTLS_ERR_LMS_OUT_OF_PRIVATE_KEYS] at hret
  · dsimp only
    split
    · simp
    · split <;> simp

/-! ## Claim C2 -/

/-- C2: the signing counter `q_next_usable_key` never decreases across a call,
changes by at most one, increments by exactly one on every successful sign,
never exceeds `LEAF_COUNT = 1024`, fails with OutOfPrivateKeys (leaving the
counter untouched) when it is `1024` at entry of an otherwise valid call, and
— once the advance has happened in a valid call — is never rolled back, even
if signature emission later fails. -/
theorem c2_counter_monotone (hasher : Hasher) (ots : OtsScheme) (f_rng : RngT)
    (ctx : LmsPrivate) (msg : List Nat) (sig : Buf) (sig_size : Nat)
    (tree0 : Nat → List Nat) (r : SignResult)
    (hr : mbedtls_lms_sign hasher ots f_rng ctx msg sig sig_size tree0 = r) :
    ctx.q_next_usable_key ≤ r.ctx.q_next_usable_key ∧
    (r.ctx.q_next_usable_key = ctx.q_next_usable_key ∨
      r.ctx.q_next_usable_key = ctx.q_next_usable_key + 1) ∧
    (r.ret = 0 → r.ctx.q_next_usable_key = ctx.q_next_usable_key + 1) ∧
    (ctx.q_next_usable_key ≤ 1024 → r.ctx.q_next_usable_key ≤ 1024) ∧
    (ctx.q_next_usable_key = 1024 → ctx.have_private_key = true →
      ¬ sig_size < 1464 → ctx.params.type = MBEDTLS_LMS_SHA256_M32_H10 →
      ctx.params.otstype = MBEDTLS_LMOTS_SHA256_N32_W8 →
      r.ret = MBEDTLS_ERR_LMS_OUT_OF_PRIVATE_KEYS ∧
        r.ctx.q_next_usable_key = 1024) ∧
    (ctx.have_private_key = true → ¬ sig_size < 1464 →
      ctx.params.type = MBEDTLS_LMS_SHA256_M32_H10 →
      ctx.params.otstype = MBEDTLS_LMOTS_SHA256_N32_W8 →
      ctx.q_next_usable_key < 1024 →
      r.ctx.q_next_usable_key = ctx.q_next_usable_key + 1) := by
  subst hr
  by_cases hD : ctx.have_private_key = false ∨ sig_size < 1464 ∨
      ctx.params.type ≠ MBEDTLS_LMS_SHA256_M32_H10 ∨
      ctx.params.otstype ≠ MBEDTLS_LMOTS_SHA256_N32_W8 ∨
      1024 ≤ ctx.q_next_usable_key
  · by_cases hQ : ctx.q_next_usable_key < 1024
    · have hfr := sign_early_frame hasher ots f_rng ctx msg sig sig_size tree0 hD
      refine ⟨by rw [hfr.1], Or.inl (by rw [hfr.1]), fun h0 => absurd h0 hfr.2,
        by rw [hfr.1]; exact id, ?_, ?_⟩
      · intro hq
        omega
      · intro hp hs ht ho hq
        exfalso
        rcases hD with h | h | h | h | h <;> first | omega | simp_all
    · by_cases hV : ctx.have_private_key = true ∧ ¬ sig_size < 1464 ∧
          ctx.params.type = MBEDTLS_LMS_SHA256_M32_H10 ∧
          ctx.params.otstype = MBEDTLS_LMOTS_SHA256_N32_W8
      · obtain ⟨hp, hs, ht, ho⟩ := hV
        have hout := sign_out_of_keys hasher ots f_rng ctx msg sig sig_size tree0
          hp hs ht ho (by omega)
        rw [hout]
        refine ⟨le_refl _, Or.inl rfl, ?_, fun h => h, ?_, ?_⟩
        · intro h0
          norm_num [MBEDTLS_ERR_LMS_OUT_OF_PRIVATE_KEYS] at h0
        · intro hq _ _ _ _
          exact ⟨rfl, hq⟩
        · intro _ _ _ _ hq
          omega
      · have hD2 : ctx.have_private_key = false ∨ sig_size < 1464 ∨
            ctx.params.type ≠ MBEDTLS_LMS_SHA256_M32_H10 ∨
            ctx.params.otstype ≠ MBEDTLS_LMOTS_SHA256_N32_W8 ∨
            1024 ≤ ctx.q_next_usable_key := hD
        have hfr := sign_early_frame hasher ots f_rng ctx msg sig sig_size tree0 hD2
        refine ⟨by rw [hfr.1], Or.inl (by rw [hfr.1]), fun h0 => absurd h0 hfr.2,
          by rw [hfr.1]; exact id, ?_, ?_⟩
        · intro hq hp hs ht ho
          exact absurd ⟨hp, hs, ht, ho⟩ hV
        · intro hp hs ht ho hq
          omega
  · push_neg at hD
    obtain ⟨hp, hs, ht, ho, hq⟩ := hD
    have hp2 : ctx.have_private_key = true := by
      cases hb : ctx.have_private_key
      · exact absurd hb hp
      · rfl
    have hadv := sign_advances hasher ots f_rng ctx msg sig sig_size tree0
      hp2 (by omega) ht ho hq
    refine ⟨by omega, Or.inr hadv, fun _ => hadv, by omega, ?_, fun _ _ _ _ _ => hadv⟩
    intro h1024
    omega

/-- Witness for C2: a concrete valid context whose counter is exhausted. -/
theorem c2_counter_monotone_witness :
    { priv_demo with q_next_usable_key := 1024 }.q_next_usable_key ≤
      (⟨MBEDTLS_ERR_LMS_OUT_OF_PRIVATE_KEYS,
        { priv_demo with q_next_usable_key := 1024 }, fun _ => 0, none⟩ :
          SignResult).ctx.q_next_usable_key ∧
    ((⟨MBEDTLS_ERR_LMS_OUT_OF_PRIVATE_KEYS,
        { priv_demo with q_next_usable_key := 1024 }, fun _ => 0, none⟩ :
          SignResult).ctx.q_next_usable_key =
        { priv_demo with q_next_usable_key := 1024 }.q_next_usable_key ∨
      (⟨MBEDTLS_ERR_LMS_OUT_OF_PRIVATE_KEYS,
        { priv_demo with q_next_usable_key := 1024 }, fun _ => 0, none⟩ :
          SignResult).ctx.q_next_usable_key =
        { priv_demo with q_next_usable_key := 1024 }.q_next_usable_key + 1) ∧
    ((⟨MBEDTLS_ERR_LMS_OUT_OF_PRIVATE_KEYS,
        { priv_demo with q_next_usable_key := 1024 }, fun _ => 0, none⟩ :
          SignResult).ret = 0 →
      (⟨MBEDTLS_ERR_LMS_OUT_OF_PRIVATE_KEYS,
        { priv_demo with q_next_usable_key := 1024 }, fun _ => 0, none⟩ :
          SignResult).ctx.q_next_usable_key =
        { priv_demo with q_next_usable_key := 1024 }.q_next_usable_key + 1) ∧
    ({ priv_demo with q_next_usable_key := 1024 }.q_next_usable_key ≤ 1024 →
      (⟨MBEDTLS_ERR_LMS_OUT_OF_PRIVATE_KEYS,
        { priv_demo with q_next_usable_key := 1024 }, fun _ => 0, none⟩ :
          SignResult).ctx.q_next_usable_key ≤ 1024) ∧
    ({ priv_demo with q_next_usable_key := 1024 }.q_next_usable_key = 1024 →
      { priv_demo with q_next_usable_key := 1024 }.have_private_key = true →
      ¬ (1464 : Nat) < 1464 →
      { priv_demo with q_next_usable_key := 1024 }.params.type = MBEDTLS_LMS_SHA256_M32_H10 →
      { priv_demo with q_next_usable_key := 1024 }.params.otstype = MBEDTLS_LMOTS_SHA256_N32_W8 →
      (⟨MBEDTLS_ERR_LMS_OUT_OF_PRIVATE_KEYS,
        { priv_demo with q_next_usable_key := 1024 }, fun _ => 0, none⟩ :
          SignResult).ret = MBEDTLS_ERR_LMS_OUT_OF_PRIVATE_KEYS ∧
      (⟨MBEDTLS_ERR_LMS_OUT_OF_PRIVATE_KEYS,
        { priv_demo with q_next_usable_key := 1024 }, fun _ => 0, none⟩ :
          SignResult).ctx.q_next_usable_key = 1024) ∧
    ({ priv_demo with q_next_usable_key := 1024 }.have_private_key = true →
      ¬ (1464 : Nat) < 1464 →
      { priv_demo with q_next_usable_key := 1024 }.params.type = MBEDTLS_LMS_SHA256_M32_H10 →
      { priv_demo with q_next_usable_key := 1024 }.params.otstype = MBEDTLS_LMOTS_SHA256_N32_W8 →
      { priv_demo with q_next_usable_key := 1024 }.q_next_usable_key < 1024 →
      (⟨MBEDTLS_ERR_LMS_OUT_OF_PRIVATE_KEYS,
        { priv_demo with q_next_usable_key := 1024 }, fun _ => 0, none⟩ :
          SignResult).ctx.q_next_usable_key =
        { priv_demo with q_next_usable_key := 1024 }.q_next_usable_key + 1) :=
  c2_counter_monotone hasher_const ots_toy rng_ok
    { priv_demo with q_next_usable_key := 1024 } [] (fun _ => 0) 1464 (fun _ => [])
    ⟨MBEDTLS_ERR_LMS_OUT_OF_PRIVATE_KEYS,
      { priv_demo with q_next_usable_key := 1024 }, fun _ => 0, none⟩
    (sign_out_of_keys hasher_const ots_toy rng_ok
      { priv_demo with q_next_usable_key := 1024 } [] (fun _ => 0) 1464 (fun _ => [])
      rfl (by decide) rfl rfl (by decide))

/-! ## Claim C3 -/

/-- C3 counterexample: on a fully valid call whose underlying OTS sign
fails, `mbedtls_lms_sign` returns an error yet `q_next_usable_key` has been
advanced — it does not keep its pre-call value, contrary to the claim. -/
theorem c3_counterexample :
    (mbedtls_lms_sign hasher_const ots_fail_sign rng_ok priv_demo []
      (fun _ => 0) 1464 (fun _ => [])).ret ≠ 0 ∧
    (mbedtls_lms_sign hasher_const ots_fail_sign rng_ok priv_demo []
      (fun _ => 0) 1464 (fun _ => [])).ctx.q_next_usable_key ≠
      priv_demo.q_next_usable_key := by
  constructor <;> decide

/-- C3 (amended): if `mbedtls_lms_sign` returns an error, the counter either
kept its pre-call value or was advanced by exactly one; it is unchanged when
the failure comes from entry validation (missing key, short buffer, bad
parameter pair, exhausted counter) and it remains advanced by one when the
failure occurs after the counter advance (OTS sign or tree build), the
advance never being rolled back. -/
theorem c3_q_after_error (hasher : Hasher) (ots : OtsScheme) (f_rng : RngT)
    (ctx : LmsPrivate) (msg : List Nat) (sig : Buf) (sig_size : Nat)
    (tree0 : Nat → List Nat) (r : SignResult)
    (hr : mbedtls_lms_sign hasher ots f_rng ctx msg sig sig_size tree0 = r)
    (hret : r.ret ≠ 0) :
    (r.ctx.q_next_usable_key = ctx.q_next_usable_key ∨
      r.ctx.q_next_usable_key = ctx.q_next_usable_key + 1) ∧
    ((ctx.have_private_key = false ∨ sig_size < 1464 ∨
        ctx.params.type ≠ MBEDTLS_LMS_SHA256_M32_H10 ∨
        ctx.params.otstype ≠ MBEDTLS_LMOTS_SHA256_N32_W8 ∨
        1024 ≤ ctx.q_next_usable_key) →
      r.ctx = ctx) ∧
    (ctx.have_private_key = true → ¬ sig_size < 1464 →
      ctx.params.type = MBEDTLS_LMS_SHA256_M32_H10 →
      ctx.params.otstype = MBEDTLS_LMOTS_SHA256_N32_W8 →
      ctx.q_next_usable_key < 1024 →
      r.ctx.q_next_usable_key = ctx.q_next_usable_key + 1) := by
  subst hr
  refine ⟨?_, ?_, ?_⟩
  · by_cases hD : ctx.have_private_key = false ∨ sig_size < 1464 ∨
        ctx.params.type ≠ MBEDTLS_LMS_SHA256_M32_H10 ∨
        ctx.params.otstype ≠ MBEDTLS_LMOTS_SHA256_N32_W8 ∨
        1024 ≤ ctx.q_next_usable_key
    · exact Or.inl (by
        rw [(sign_early_frame hasher ots f_rng ctx msg sig sig_size tree0 hD).1])
    · push_neg at hD
      obtain ⟨hp, hs, ht, ho, hq⟩ := hD
      have hp2 : ctx.have_private_key = true := by
        cases hb : ctx.have_private_key
        · exact absurd hb hp
        · rfl
      exact Or.inr (sign_advances hasher ots f_rng ctx msg sig sig_size tree0
        hp2 (by omega) ht ho hq)
  · intro hD
    exact (sign_early_frame hasher ots f_rng ctx msg sig sig_size tree0 hD).1
  · intro hp hs ht ho hq
    exact sign_advances hasher ots f_rng ctx msg sig sig_size tree0 hp hs ht ho hq

/-- Witness for the amended C3: the concrete failing-OTS call of the
counterexample. -/
theorem c3_q_after_error_witness :
    ((mbedtls_lms_sign hasher_const ots_fail_sign rng_ok priv_demo []
        (fun _ => 0) 1464 (fun _ => [])).ctx.q_next_usable_key =
        priv_demo.q_next_usable_key ∨
      (mbedtls_lms_sign hasher_const ots_fail_sign rng_ok priv_demo []
        (fun _ => 0) 1464 (fun _ => [])).ctx.q_next_usable_key =
        priv_demo.q_next_usable_key + 1) ∧
    ((priv_demo.have_private_key = false ∨ (1464 : Nat) < 1464 ∨
        priv_demo.params.type ≠ MBEDTLS_LMS_SHA256_M32_H10 ∨
        priv_demo.params.otstype ≠ MBEDTLS_LMOTS_SHA256_N32_W8 ∨
        1024 ≤ priv_demo.q_next_usable_key) →
      (mbedtls_lms_sign hasher_const ots_fail_sign rng_ok priv_demo []
        (fun _ => 0) 1464 (fun _ => [])).ctx = priv_demo) ∧
    (priv_demo.have_private_key = true → ¬ (1464 : Nat) < 1464 →
      priv_demo.params.type = MBEDTLS_LMS_SHA256_M32_H10 →
      priv_demo.params.otstype = MBEDTLS_LMOTS_SHA256_N32_W8 →
      priv_demo.q_next_usable_key < 1024 →
      (mbedtls_lms_sign hasher_const ots_fail_sign rng_ok priv_demo []
        (fun _ => 0) 1464 (fun _ => [])).ctx.q_next_usable_key =
        priv_demo.q_next_usable_key + 1) :=
  c3_q_after_error hasher_const ots_fail_sign rng_ok priv_demo []
    (fun _ => 0) 1464 (fun _ => []) _ rfl (by decide)

/-! ## Claim C5 -/

/-- C5: the claim that `mbedtls_lms_verify` propagates node-hasher failures
is violated by the code: both node-hash statuses are discarded, and with a
failing hasher verify can return success (here the uninitialised candidate
buffer happens to equal the stored root), even though the leaf-hash
computation on the recovered candidate key reported InternalCryptoError. -/
theorem c5_hash_error_swallowed :
    mbedtls_lms_verify hasher_fail ots_toy pub_demo [] sig_demo 1464
      (List.replicate 32 7) = 0 ∧
    create_merkle_leaf_value hasher_fail pub_demo.params
      (((buf_read sig_demo SIG_OTS_SIG_OFFSET 1136).drop 4).take 32) 1024 =
      .error MBEDTLS_ERR_LMS_INTERNAL_CRYPTO ∧
    (∀ m, hasher_fail m = none) := by
  refine ⟨by decide, rfl, fun m => rfl⟩

/-! ## Claim C7 -/

set_option maxRecDepth 40000 in
/-- C7: the claim that an RNG failure while drawing the key identifier `I`
makes `mbedtls_lms_generate_private_key` fail is violated by the code: the
status returned by `f_rng` is discarded, and with an always-failing RNG the
call still returns success and installs the private key. -/
theorem c7_rng_error_swallowed :
    (rng_fail MBEDTLS_LMOTS_I_KEY_ID_LEN).1 ≠ 0 ∧
    (mbedtls_lms_generate_private_key ots_toy MBEDTLS_LMS_SHA256_M32_H10
      MBEDTLS_LMOTS_SHA256_N32_W8 rng_fail mbedtls_lms_init_private
      (List.replicate 32 2)).ret = 0 ∧
    (mbedtls_lms_generate_private_key ots_toy MBEDTLS_LMS_SHA256_M32_H10
      MBEDTLS_LMOTS_SHA256_N32_W8 rng_fail mbedtls_lms_init_private
      (List.replicate 32 2)).ctx.have_private_key = true := by
  refine ⟨by decide, ?_, ?_⟩ <;> decide

/-! ## Tree-builder lemmas -/

theorem create_leaf_ok_of_total (hasher : Hasher) (params : LmsParameters)
    (htot : HasherTotal hasher) (pk : List Nat) (r : Nat) :
    ∃ v, create_merkle_leaf_value hasher params pk r = .ok v ∧ v.length = 32 := by
  unfold create_merkle_leaf_value
  obtain ⟨v, hv, hl⟩ := htot (bytesOf params.I_key_identifier MBEDTLS_LMOTS_I_KEY_ID_LEN ++
    mbedtls_lms_unsigned_int_to_network_bytes r 4 ++ D_LEAF_CONSTANT_BYTES ++
    bytesOf pk (MBEDTLS_LMOTS_N_HASH_LEN params.otstype))
  rw [hv]
  exact ⟨v, rfl, hl⟩

theorem create_internal_ok_of_total (hasher : Hasher) (params : LmsParameters)
    (htot : HasherTotal hasher) (l rn : List Nat) (r : Nat) :
    ∃ v, create_merkle_internal_value hasher params l rn r = .ok v ∧ v.length = 32 := by
  unfold create_merkle_internal_value
  obtain ⟨v, hv, hl⟩ := htot (bytesOf params.I_key_identifier MBEDTLS_LMOTS_I_KEY_ID_LEN ++
    mbedtls_lms_unsigned_int_to_network_bytes r 4 ++ D_INTR_CONSTANT_BYTES ++
    bytesOf l (MBEDTLS_LMS_M_NODE_BYTES params.type) ++
    bytesOf rn (MBEDTLS_LMS_M_NODE_BYTES params.type))
  rw [hv]
  exact ⟨v, rfl, hl⟩

theorem create_leaf_length (hasher : Hasher) (params : LmsParameters)
    (htot : HasherTotal hasher) (pk : List Nat) (r : Nat) (v : List Nat)
    (h : create_merkle_leaf_value hasher params pk r = .ok v) : v.length = 32 := by
  obtain ⟨w, hw, hl⟩ := create_leaf_ok_of_total hasher params htot pk r
  rw [h] at hw
  injection hw with hw
  rw [hw]
  exact hl

theorem create_internal_length (hasher : Hasher) (params : LmsParameters)
    (htot : HasherTotal hasher) (l rn : List Nat) (r : Nat) (v : List Nat)
    (h : create_merkle_internal_value hasher params l rn r = .ok v) : v.length = 32 := by
  obtain ⟨w, hw, hl⟩ := create_internal_ok_of_total hasher params htot l rn r
  rw [h] at hw
  injection hw with hw
  rw [hw]
  exact hl

theorem calc_leaves_ok (hasher : Hasher) (params : LmsParameters)
    (pubkeys : Nat → List Nat) :
    ∀ (n i : Nat) (tree t1 : Nat → List Nat),
    calc_leaves hasher params pubkeys i n tree = .ok t1 →
    (∀ j, j < MERKLE_TREE_INTERNAL_NODE_AM params.type + i ∨
        MERKLE_TREE_INTERNAL_NODE_AM params.type + i + n ≤ j → t1 j = tree j) ∧
    (∀ m, i ≤ m → m < i + n →
      create_merkle_leaf_value hasher params (pubkeys m)
        (MERKLE_TREE_INTERNAL_NODE_AM params.type + m) =
        .ok (t1 (MERKLE_TREE_INTERNAL_NODE_AM params.type + m))) := by
  intro n
  induction n with
  | zero =>
    intro i tree t1 h
    simp only [calc_leaves] at h
    injection h with h
    subst h
    exact ⟨fun j hj => rfl, fun m hm1 hm2 => absurd hm2 (by omega)⟩
  | succ n ih =>
    intro i tree t1 h
    rw [calc_leaves] at h
    cases hc : create_merkle_leaf_value hasher params (pubkeys i)
        (MERKLE_TREE_INTERNAL_NODE_AM params.type + i) with
    | error e => rw [hc] at h; cases h
    | ok v =>
      rw [hc] at h
      obtain ⟨ha, hb⟩ := ih (i + 1)
        (tree_set tree (MERKLE_TREE_INTERNAL_NODE_AM params.type + i) v) t1 h
      constructor
      · intro j hj
        rw [ha j (by omega)]
        simp only [tree_set]
        rw [if_neg (by omega)]
      · intro m hm1 hm2
        by_cases hm : m = i
        · subst hm
          have hv : t1 (MERKLE_TREE_INTERNAL_NODE_AM params.type + m) = v := by
            rw [ha (MERKLE_TREE_INTERNAL_NODE_AM params.type + m) (by omega)]
            simp only [tree_set]
            simp
          rw [hv]
          exact hc
        · exact hb m (by omega) (by omega)

theorem calc_leaves_total (hasher : Hasher) (params : LmsParameters)
    (pubkeys : Nat → List Nat) (htot : HasherTotal hasher) :
    ∀ (n i : Nat) (tree : Nat → List Nat),
    ∃ t1, calc_leaves hasher params pubkeys i n tree = .ok t1 := by
  intro n
  induction n with
  | zero => exact fun i tree => ⟨tree, rfl⟩
  | succ n ih =>
    intro i tree
    obtain ⟨v, hv, _⟩ := create_leaf_ok_of_total hasher params htot
      (pubkeys i) (MERKLE_TREE_INTERNAL_NODE_AM params.type + i)
    obtain ⟨t1, ht1⟩ := ih (i + 1)
      (tree_set tree (MERKLE_TREE_INTERNAL_NODE_AM params.type + i) v)
    refine ⟨t1, ?_⟩
    rw [calc_leaves, hv]
    exact ht1

theorem calc_internal_ok (hasher : Hasher) (params : LmsParameters) :
    ∀ (r : Nat) (tree t1 : Nat → List Nat),
    calc_internal hasher params r tree = .ok t1 →
    (∀ j, j = 0 ∨ r < j → t1 j = tree j) ∧
    (∀ s, 1 ≤ s → s ≤ r →
      create_merkle_internal_value hasher params (t1 (s * 2)) (t1 (s * 2 + 1)) s =
        .ok (t1 s)) := by
  intro r
  induction r with
  | zero =>
    intro tree t1 h
    simp only [calc_internal] at h
    injection h with h
    subst h
    exact ⟨fun j hj => rfl, fun s hs1 hs2 => absurd hs2 (by omega)⟩
  | succ r ih =>
    intro tree t1 h
    rw [calc_internal] at h
    cases hc : create_merkle_internal_value hasher params (tree ((r + 1) * 2))
        (tree ((r + 1) * 2 + 1)) (r + 1) with
    | error e => rw [hc] at h; cases h
    | ok v =>
      rw [hc] at h
      obtain ⟨ha, hb⟩ := ih (tree_set tree (r + 1) v) t1 h
      have hfix : t1 (r + 1) = v := by
        rw [ha (r + 1) (by omega)]
        simp only [tree_set]
        simp
      have hc1 : t1 ((r + 1) * 2) = tree ((r + 1) * 2) := by
        rw [ha _ (by omega)]
        simp only [tree_set]
        rw [if_neg (by omega)]
      have hc2 : t1 ((r + 1) * 2 + 1) = tree ((r + 1) * 2 + 1) := by
        rw [ha _ (by omega)]
        simp only [tree_set]
        rw [if_neg (by omega)]
      constructor
      · intro j hj
        rw [ha j (by omega)]
        simp only [tree_set]
        rw [if_neg (by omega)]
      · intro s hs1 hs2
        by_cases hs : s = r + 1
        · subst hs
          rw [hfix, hc1, hc2]
          exact hc
        · exact hb s hs1 (by omega)

theorem calc_internal_total (hasher : Hasher) (params : LmsParameters)
    (htot : HasherTotal hasher) :
    ∀ (r : Nat) (tree : Nat → List Nat),
    ∃ t1, calc_internal hasher params r tree = .ok t1 := by
  intro r
  induction r with
  | zero => exact fun tree => ⟨tree, rfl⟩
  | succ r ih =>
    intro tree
    obtain ⟨v, hv, _⟩ := create_internal_ok_of_total hasher params htot
      (tree ((r + 1) * 2)) (tree ((r + 1) * 2 + 1)) (r + 1)
    obtain ⟨t1, ht1⟩ := ih (tree_set tree (r + 1) v)
    refine ⟨t1, ?_⟩
    rw [calc_internal, hv]
    exact ht1

theorem calculate_merkle_tree_spec (hasher : Hasher) (ctx : LmsPrivate)
    (tree0 t : Nat → List Nat)
    (h : calculate_merkle_tree hasher ctx tree0 = .ok t) :
    (∀ i, i < 1024 →
      create_merkle_leaf_value hasher ctx.params (ctx.ots_public_keys i) (1024 + i) =
        .ok (t (1024 + i))) ∧
    (∀ s, 1 ≤ s → s < 1024 →
      create_merkle_internal_value hasher ctx.params (t (s * 2)) (t (s * 2 + 1)) s =
        .ok (t s)) := by
  rw [calculate_merkle_tree] at h
  cases hl : calc_leaves hasher ctx.params ctx.ots_public_keys 0
      (MERKLE_TREE_INTERNAL_NODE_AM ctx.params.type) tree0 with
  | error e => rw [hl] at h; cases h
  | ok t1 =>
    rw [hl] at h
    obtain ⟨ha1, hb1⟩ := calc_leaves_ok hasher ctx.params ctx.ots_public_keys
      (MERKLE_TREE_INTERNAL_NODE_AM ctx.params.type) 0 tree0 t1 hl
    obtain ⟨ha2, hb2⟩ := calc_internal_ok hasher ctx.params
      (MERKLE_TREE_INTERNAL_NODE_AM ctx.params.type - 1) t1 t h
    rw [internal_am_eq] at ha1 hb1 ha2 hb2
    constructor
    · intro i hi
      have hleaf := hb1 i (by omega) (by omega)
      have hsame : t (1024 + i) = t1 (1024 + i) := ha2 (1024 + i) (by omega)
      rw [hsame]
      exact hleaf
    · intro s hs1 hs2
      exact hb2 s hs1 (by omega)

theorem calculate_merkle_tree_total (hasher : Hasher) (ctx : LmsPrivate)
    (tree0 : Nat → List Nat) (htot : HasherTotal hasher) :
    ∃ t, calculate_merkle_tree hasher ctx tree0 = .ok t := by
  obtain ⟨t1, h1⟩ := calc_leaves_total hasher ctx.params ctx.ots_public_keys htot
    (MERKLE_TREE_INTERNAL_NODE_AM ctx.params.type) 0 tree0
  obtain ⟨t, h2⟩ := calc_internal_total hasher ctx.params htot
    (MERKLE_TREE_INTERNAL_NODE_AM ctx.params.type - 1) t1
  refine ⟨t, ?_⟩
  rw [calculate_merkle_tree, h1]
  exact h2

theorem calculate_merkle_tree_det (hasher : Hasher) (ctx : LmsPrivate)
    (tree0 tree2 t t2 : Nat → List Nat)
    (h : calculate_merkle_tree hasher ctx tree0 = .ok t)
    (h2 : calculate_merkle_tree hasher ctx tree2 = .ok t2) :
    ∀ j, 0 < j → j < 2048 → t j = t2 j := by
  obtain ⟨hleaf, hint⟩ := calculate_merkle_tree_spec hasher ctx tree0 t h
  obtain ⟨hleaf2, hint2⟩ := calculate_merkle_tree_spec hasher ctx tree2 t2 h2
  suffices hs : ∀ k j, 2048 - j ≤ k → 0 < j → j < 2048 → t j = t2 j by
    intro j hj1 hj2
    exact hs 2048 j (by omega) hj1 hj2
  intro k
  induction k with
  | zero =>
    intro j hk hj1 hj2
    omega
  | succ k ih =>
    intro j hk hj1 hj2
    by_cases hj : 1024 ≤ j
    · have hi := hleaf (j - 1024) (by omega)
      have hi2 := hleaf2 (j - 1024) (by omega)
      rw [show 1024 + (j - 1024) = j from by omega] at hi hi2
      rw [hi] at hi2
      injection hi2
    · have e1 := hint j hj1 (by omega)
      have e2 := hint2 j hj1 (by omega)
      have hch1 : t (j * 2) = t2 (j * 2) := ih (j * 2) (by omega) (by omega) (by omega)
      have hch2 : t (j * 2 + 1) = t2 (j * 2 + 1) := ih (j * 2 + 1) (by omega) (by omega)
        (by omega)
      rw [hch1, hch2] at e1
      rw [e1] at e2
      injection e2

theorem calculate_merkle_tree_q_irrel (hasher : Hasher) (ctx : LmsPrivate)
    (tree0 : Nat → List Nat) (n : Nat) :
    calculate_merkle_tree hasher { ctx with q_next_usable_key := n } tree0 =
      calculate_merkle_tree hasher ctx tree0 := rfl

theorem get_merkle_path_q_irrel (hasher : Hasher) (ctx : LmsPrivate)
    (leaf_node_id : Nat) (tree0 : Nat → List Nat) (n : Nat) :
    get_merkle_path hasher { ctx with q_next_usable_key := n } leaf_node_id tree0 =
      get_merkle_path hasher ctx leaf_node_id tree0 := rfl

/-! ## Authentication-path lemmas -/

theorem tree_node_length (hasher : Hasher) (ctx : LmsPrivate)
    (tree0 t : Nat → List Nat) (htot : HasherTotal hasher)
    (h : calculate_merkle_tree hasher ctx tree0 = .ok t) :
    ∀ j, 0 < j → j < 2048 → (t j).length = 32 := by
  obtain ⟨hleaf, hint⟩ := calculate_merkle_tree_spec hasher ctx tree0 t h
  intro j hj1 hj2
  by_cases hj : 1024 ≤ j
  · have hi := hleaf (j - 1024) (by omega)
    rw [show 1024 + (j - 1024) = j from by omega] at hi
    exact create_leaf_length hasher ctx.params htot _ _ _ hi
  · exact create_internal_length hasher ctx.params htot _ _ _ _ (hint j hj1 (by omega))

theorem path_nodes_length (type : Nat) (t : Nat → List Nat) :
    ∀ (n curr : Nat), (path_nodes type t curr n).length = n := by
  intro n
  induction n with
  | zero => intro curr; rfl
  | succ n ih => intro curr; simp [path_nodes, ih]

theorem path_nodes_mem_length (type : Nat) (t : Nat → List Nat) :
    ∀ (n curr : Nat) (x : List Nat), x ∈ path_nodes type t curr n → x.length = 32 := by
  intro n
  induction n with
  | zero => intro curr x hx; cases hx
  | succ n ih =>
    intro curr x hx
    rw [path_nodes] at hx
    rcases List.mem_cons.mp hx with hx | hx
    · rw [hx, bytesOf_length, m_node_bytes_eq]
    · exact ih (curr / 2) x hx

theorem path_nodes_getD (type : Nat) (t : Nat → List Nat) :
    ∀ (n j curr : Nat), j < n →
    (path_nodes type t curr n).getD j [] =
      bytesOf (t ((curr / 2 ^ j) ^^^ 1)) (MBEDTLS_LMS_M_NODE_BYTES type) := by
  intro n
  induction n with
  | zero => intro j curr h; omega
  | succ n ih =>
    intro j curr hj
    cases j with
    | zero => simp [path_nodes]
    | succ j =>
      rw [path_nodes, List.getD_cons_succ, ih j (curr / 2) (by omega)]
      have harg : curr / 2 / 2 ^ j = curr / 2 ^ (j + 1) := by
        rw [Nat.div_div_eq_div_mul, pow_succ, mul_comm]
      rw [harg]

theorem flatten_length_uniform :
    ∀ (ns : List (List Nat)), (∀ x ∈ ns, x.length = 32) →
    ns.flatten.length = 32 * ns.length := by
  intro ns
  induction ns with
  | nil => intro _; rfl
  | cons a l ih =>
    intro h
    have ha : a.length = 32 := h a (by simp)
    have hl := ih fun x hx => h x (by simp [hx])
    simp only [List.flatten_cons, List.length_append, List.length_cons, ha, hl]
    ring

theorem flatten_drop_take :
    ∀ (ns : List (List Nat)) (j : Nat), (∀ x ∈ ns, x.length = 32) → j < ns.length →
    (ns.flatten.drop (32 * j)).take 32 = ns.getD j [] := by
  intro ns
  induction ns with
  | nil => intro j _ hj; simp at hj
  | cons a l ih =>
    intro j hlen hj
    have ha : a.length = 32 := hlen a (by simp)
    cases j with
    | zero =>
      simp only [Nat.mul_zero, List.drop_zero, List.getD_cons_zero, List.flatten_cons]
      rw [← ha, List.take_left]
    | succ j =>
      rw [List.flatten_cons, List.getD_cons_succ,
        show 32 * (j + 1) = a.length + 32 * j from by omega, List.drop_append]
      exact ih j (fun x hx => hlen x (by simp [hx])) (by simpa using hj)

theorem buf_read_flatten (b : Buf) (off : Nat) (ns : List (List Nat)) (j : Nat)
    (hlen : ∀ x ∈ ns, x.length = 32) (hj : j < ns.length) :
    buf_read (buf_write b off ns.flatten) (off + 32 * j) 32 = ns.getD j [] := by
  have h1 := buf_read_write_inside b off ns.flatten (32 * j) 32
    (by rw [flatten_length_uniform ns hlen]; omega)
  rw [h1, flatten_drop_take ns j hlen hj]

theorem xor_one_of_even {x : Nat} (h : x % 2 = 0) : x ^^^ 1 = x + 1 := by
  obtain ⟨k, rfl⟩ : ∃ k, x = 2 * k := ⟨x / 2, by omega⟩
  have h1 : (2 * k : Nat) = Nat.bit false k := by simp [Nat.bit]
  have h2 : (1 : Nat) = Nat.bit true 0 := by simp [Nat.bit]
  rw [h1, h2, Nat.xor_bit]
  simp [Nat.bit]

theorem xor_one_of_odd {x : Nat} (h : x % 2 = 1) : x ^^^ 1 = x - 1 := by
  obtain ⟨k, rfl⟩ : ∃ k, x = 2 * k + 1 := ⟨x / 2, by omega⟩
  have h1 : (2 * k + 1 : Nat) = Nat.bit true k := by simp [Nat.bit]
  have h2 : (1 : Nat) = Nat.bit true 0 := by simp [Nat.bit]
  rw [h1, h2, Nat.xor_bit]
  simp [Nat.bit]

theorem xor_one_bounds {x : Nat} (h1 : 2 ≤ x) (h2 : x ≤ 2047) :
    0 < x ^^^ 1 ∧ x ^^^ 1 < 2048 := by
  rcases Nat.mod_two_eq_zero_or_one x with h | h
  · rw [xor_one_of_even h]
    omega
  · rw [xor_one_of_odd h]
    omega

theorem get_merkle_path_ok (hasher : Hasher) (ctx : LmsPrivate) (leaf_node_id : Nat)
    (tree0 t : Nat → List Nat)
    (hT : calculate_merkle_tree hasher ctx tree0 = .ok t) :
    get_merkle_path hasher ctx leaf_node_id tree0 =
      .ok (path_nodes ctx.params.type t leaf_node_id
        (MBEDTLS_LMS_H_TREE_HEIGHT ctx.params.type)) := by
  unfold get_merkle_path
  rw [hT]

/-! ## Claim C8 -/

/-- C8: with a functioning hasher, `calculate_merkle_tree` on a populated
valid private context succeeds, computing `tree[2^H + i]` as the leaf hash of
`ots_public_keys[i]` for every `i < 1024` and `tree[r]` as the internal hash
of `tree[2r]` and `tree[2r+1]` for every `1 ≤ r < 1024` (the descending order
guaranteeing both children exist); the construction is deterministic (a
second run, even from different uninitialised stack contents, yields the same
node array on indices 1..2047 and the same root), and
`mbedtls_lms_calculate_public_key` succeeds, copying `tree[1]` into the
public context's `T[1]` and setting `have_public_key`. -/
theorem c8_merkle_tree_construction (hasher : Hasher) (priv : LmsPrivate)
    (pub0 : LmsPublic) (tree0 tree2 : Nat → List Nat)
    (htot : HasherTotal hasher)
    (hpk : priv.have_private_key = true)
    (ht : priv.params.type = MBEDTLS_LMS_SHA256_M32_H10)
    (ho : priv.params.otstype = MBEDTLS_LMOTS_SHA256_N32_W8) :
    ∃ t, calculate_merkle_tree hasher priv tree0 = .ok t ∧
      (∀ i, i < 1024 →
        create_merkle_leaf_value hasher priv.params (priv.ots_public_keys i) (1024 + i) =
          .ok (t (1024 + i))) ∧
      (∀ r, 1 ≤ r → r < 1024 →
        create_merkle_internal_value hasher priv.params (t (r * 2)) (t (r * 2 + 1)) r =
          .ok (t r)) ∧
      (∃ t2, calculate_merkle_tree hasher priv tree2 = .ok t2 ∧
        ∀ j, 0 < j → j < 2048 → t j = t2 j) ∧
      (mbedtls_lms_calculate_public_key hasher pub0 priv tree0).ret = 0 ∧
      (mbedtls_lms_calculate_public_key hasher pub0 priv tree0).ctx.T_1_pub_key = t 1 ∧
      (mbedtls_lms_calculate_public_key hasher pub0 priv tree0).ctx.have_public_key =
        true := by
  obtain ⟨t, hT⟩ := calculate_merkle_tree_total hasher priv tree0 htot
  obtain ⟨t2, hT2⟩ := calculate_merkle_tree_total hasher priv tree2 htot
  obtain ⟨hleaf, hint⟩ := calculate_merkle_tree_spec hasher priv tree0 t hT
  have hdet := calculate_merkle_tree_det hasher priv tree0 tree2 t t2 hT hT2
  have hlen : (t 1).length = 32 :=
    create_internal_length hasher priv.params htot _ _ 1 _ (hint 1 (by omega) (by omega))
  refine ⟨t, hT, hleaf, hint, ⟨t2, hT2, hdet⟩, ?_, ?_, ?_⟩
  · unfold mbedtls_lms_calculate_public_key
    rw [if_neg (by simp [hpk]), if_neg (by simp [ht]), if_neg (by simp [ho]), hT]
  · unfold mbedtls_lms_calculate_public_key
    rw [if_neg (by simp [hpk]), if_neg (by simp [ht]), if_neg (by simp [ho]), hT]
    show bytesOf (t 1) (MBEDTLS_LMS_M_NODE_BYTES priv.params.type) = t 1
    rw [m_node_bytes_eq]
    exact bytesOf_eq_self hlen
  · unfold mbedtls_lms_calculate_public_key
    rw [if_neg (by simp [hpk]), if_neg (by simp [ht]), if_neg (by simp [ho]), hT]

/-- Witness for C8: the constant hasher and a concrete populated context. -/
theorem c8_merkle_tree_construction_witness :
    ∃ t, calculate_merkle_tree hasher_const priv_demo (fun _ => []) = .ok t ∧
      (∀ i, i < 1024 →
        create_merkle_leaf_value hasher_const priv_demo.params
          (priv_demo.ots_public_keys i) (1024 + i) = .ok (t (1024 + i))) ∧
      (∀ r, 1 ≤ r → r < 1024 →
        create_merkle_internal_value hasher_const priv_demo.params
          (t (r * 2)) (t (r * 2 + 1)) r = .ok (t r)) ∧
      (∃ t2, calculate_merkle_tree hasher_const priv_demo (fun _ => [0]) = .ok t2 ∧
        ∀ j, 0 < j → j < 2048 → t j = t2 j) ∧
      (mbedtls_lms_calculate_public_key hasher_const mbedtls_lms_init_public priv_demo
        (fun _ => [])).ret = 0 ∧
      (mbedtls_lms_calculate_public_key hasher_const mbedtls_lms_init_public priv_demo
        (fun _ => [])).ctx.T_1_pub_key = t 1 ∧
      (mbedtls_lms_calculate_public_key hasher_const mbedtls_lms_init_public priv_demo
        (fun _ => [])).ctx.have_public_key = true :=
  c8_merkle_tree_construction hasher_const priv_demo mbedtls_lms_init_public
    (fun _ => []) (fun _ => [0]) (fun _ => ⟨zeros32, rfl, rfl⟩) rfl rfl rfl

/-! ## Sign success path -/

theorem sign_success_eq (hasher : Hasher) (ots : OtsScheme) (f_rng : RngT)
    (ctx : LmsPrivate) (msg : List Nat) (sig : Buf) (sig_size : Nat)
    (tree0 : Nat → List Nat) (s : List Nat) (t : Nat → List Nat)
    (hpk : ctx.have_private_key = true)
    (hsize : ¬ sig_size < 1464)
    (ht : ctx.params.type = MBEDTLS_LMS_SHA256_M32_H10)
    (ho : ctx.params.otstype = MBEDTLS_LMOTS_SHA256_N32_W8)
    (hq : ctx.q_next_usable_key < 1024)
    (hots : ots.ots_sign (ctx.ots_private_keys ctx.q_next_usable_key) f_rng msg = .ok s)
    (hT : calculate_merkle_tree hasher ctx tree0 = .ok t) :
    mbedtls_lms_sign hasher ots f_rng ctx msg sig sig_size tree0 =
      ⟨0, { ctx with q_next_usable_key := ctx.q_next_usable_key + 1 },
        buf_write
          (buf_write
            (buf_write (buf_write sig SIG_OTS_SIG_OFFSET s)
              (SIG_TYPE_OFFSET ctx.params.otstype)
              (mbedtls_lms_unsigned_int_to_network_bytes ctx.params.type
                MBEDTLS_LMS_TYPE_LEN))
            SIG_Q_LEAF_ID_OFFSET
            (mbedtls_lms_unsigned_int_to_network_bytes ctx.q_next_usable_key
              MBEDTLS_LMOTS_Q_LEAF_ID_LEN))
          (SIG_PATH_OFFSET ctx.params.otstype)
          (path_nodes ctx.params.type t
            (MERKLE_TREE_INTERNAL_NODE_AM ctx.params.type + ctx.q_next_usable_key)
            (MBEDTLS_LMS_H_TREE_HEIGHT ctx.params.type)).flatten,
        some (MBEDTLS_LMS_SIG_LEN ctx.params.type ctx.params.otstype)⟩ := by
  have hpath : get_merkle_path hasher
      { ctx with q_next_usable_key := ctx.q_next_usable_key + 1 }
      (MERKLE_TREE_INTERNAL_NODE_AM ctx.params.type + ctx.q_next_usable_key) tree0 =
      .ok (path_nodes ctx.params.type t
        (MERKLE_TREE_INTERNAL_NODE_AM ctx.params.type + ctx.q_next_usable_key)
        (MBEDTLS_LMS_H_TREE_HEIGHT ctx.params.type)) := by
    rw [get_merkle_path_q_irrel]
    exact get_merkle_path_ok hasher ctx _ tree0 t hT
  unfold mbedtls_lms_sign
  rw [if_neg (by simp [hpk]), if_neg (by rw [sig_len_eq]; exact hsize),
    if_neg (by simp [ht]), if_neg (by simp [ho]),
    if_neg (by rw [ge_iff_le, leaf_am_eq]; omega)]
  dsimp only
  rw [hots]
  dsimp only
  rw [hpath]

/-- Layout of the signature buffer written by a successful `mbedtls_lms_sign`
call, read back field by field. -/
theorem sign_layout (hasher : Hasher) (ots : OtsScheme) (f_rng : RngT)
    (ctx : LmsPrivate) (msg : List Nat) (sig : Buf) (sig_size : Nat)
    (tree0 : Nat → List Nat) (s : List Nat)
    (htot : HasherTotal hasher)
    (hpk : ctx.have_private_key = true)
    (hsize : ¬ sig_size < 1464)
    (ht : ctx.params.type = MBEDTLS_LMS_SHA256_M32_H10)
    (ho : ctx.params.otstype = MBEDTLS_LMOTS_SHA256_N32_W8)
    (hq : ctx.q_next_usable_key < 1024)
    (hots : ots.ots_sign (ctx.ots_private_keys ctx.q_next_usable_key) f_rng msg = .ok s)
    (hslen : s.length = 1136) :
    (mbedtls_lms_sign hasher ots f_rng ctx msg sig sig_size tree0).ret = 0 ∧
    (mbedtls_lms_sign hasher ots f_rng ctx msg sig sig_size tree0).sig_len = some 1464 ∧
    buf_read (mbedtls_lms_sign hasher ots f_rng ctx msg sig sig_size tree0).sig 0 4 =
      mbedtls_lms_unsigned_int_to_network_bytes ctx.q_next_usable_key 4 ∧
    buf_read (mbedtls_lms_sign hasher ots f_rng ctx msg sig sig_size tree0).sig 4 1136 =
      s ∧
    buf_read (mbedtls_lms_sign hasher ots f_rng ctx msg sig sig_size tree0).sig 4 4 =
      s.take 4 ∧
    buf_read (mbedtls_lms_sign hasher ots f_rng ctx msg sig sig_size tree0).sig 1140 4 =
      mbedtls_lms_unsigned_int_to_network_bytes MBEDTLS_LMS_SHA256_M32_H10 4 ∧
    ∃ t, calculate_merkle_tree hasher ctx tree0 = .ok t ∧
      ∀ h, h < 10 →
        buf_read (mbedtls_lms_sign hasher ots f_rng ctx msg sig sig_size tree0).sig
          (1144 + 32 * h) 32 =
          t (((1024 + ctx.q_next_usable_key) / 2 ^ h) ^^^ 1) := by
  obtain ⟨t, hT⟩ := calculate_merkle_tree_total hasher ctx tree0 htot
  have heq := sign_success_eq hasher ots f_rng ctx msg sig sig_size tree0 s t
    hpk hsize ht ho hq hots hT
  have hnodelen := tree_node_length hasher ctx tree0 t htot hT
  have hmem := path_nodes_mem_length ctx.params.type t
    (MBEDTLS_LMS_H_TREE_HEIGHT ctx.params.type)
    (MERKLE_TREE_INTERNAL_NODE_AM ctx.params.type + ctx.q_next_usable_key)
  have hplen := path_nodes_length ctx.params.type t
    (MBEDTLS_LMS_H_TREE_HEIGHT ctx.params.type)
    (MERKLE_TREE_INTERNAL_NODE_AM ctx.params.type + ctx.q_next_usable_key)
  have hflat : (path_nodes ctx.params.type t
      (MERKLE_TREE_INTERNAL_NODE_AM ctx.params.type + ctx.q_next_usable_key)
      (MBEDTLS_LMS_H_TREE_HEIGHT ctx.params.type)).flatten.length = 320 := by
    rw [flatten_length_uniform _ hmem, hplen, h_height_eq]
  have hqlen : (mbedtls_lms_unsigned_int_to_network_bytes ctx.q_next_usable_key
      MBEDTLS_LMOTS_Q_LEAF_ID_LEN).length = 4 :=
    unsigned_int_to_network_bytes_length _ _
  have htlen : (mbedtls_lms_unsigned_int_to_network_bytes ctx.params.type
      MBEDTLS_LMS_TYPE_LEN).length = 4 :=
    unsigned_int_to_network_bytes_length _ _
  refine ⟨by rw [heq], by rw [heq]; simp [sig_len_eq], ?_, ?_, ?_, ?_, ?_⟩
  · rw [heq]
    show buf_read _ 0 4 = _
    rw [buf_read_write_of_disjoint _ _ _ 0 4
        (Or.inl (by simp only [hqlen, SIG_Q_LEAF_ID_OFFSET, sig_path_offset_eq, sig_type_offset_eq]; omega))]
    have hself := buf_read_write_self
      (buf_write (buf_write sig SIG_OTS_SIG_OFFSET s)
        (SIG_TYPE_OFFSET ctx.params.otstype)
        (mbedtls_lms_unsigned_int_to_network_bytes ctx.params.type MBEDTLS_LMS_TYPE_LEN))
      SIG_Q_LEAF_ID_OFFSET
      (mbedtls_lms_unsigned_int_to_network_bytes ctx.q_next_usable_key
        MBEDTLS_LMOTS_Q_LEAF_ID_LEN)
    rw [hqlen] at hself
    exact hself
  · rw [heq]
    show buf_read _ 4 1136 = s
    rw [buf_read_write_of_disjoint _ _ _ 4 1136
        (Or.inl (by simp only [hqlen, SIG_Q_LEAF_ID_OFFSET, sig_path_offset_eq, sig_type_offset_eq]; omega)),
      buf_read_write_of_disjoint _ _ _ 4 1136
        (Or.inr (by simp only [hqlen, SIG_Q_LEAF_ID_OFFSET, sig_path_offset_eq, sig_type_offset_eq]; omega)),
      buf_read_write_of_disjoint _ _ _ 4 1136
        (Or.inl (by simp only [hqlen, SIG_Q_LEAF_ID_OFFSET, sig_path_offset_eq, sig_type_offset_eq]; omega))]
    have hself := buf_read_write_self sig SIG_OTS_SIG_OFFSET s
    rw [hslen] at hself
    exact hself
  · rw [heq]
    show buf_read _ 4 4 = s.take 4
    rw [buf_read_write_of_disjoint _ _ _ 4 4
        (Or.inl (by simp only [hqlen, SIG_Q_LEAF_ID_OFFSET, sig_path_offset_eq, sig_type_offset_eq]; omega)),
      buf_read_write_of_disjoint _ _ _ 4 4
        (Or.inr (by simp only [hqlen, SIG_Q_LEAF_ID_OFFSET, sig_path_offset_eq, sig_type_offset_eq]; omega)),
      buf_read_write_of_disjoint _ _ _ 4 4
        (Or.inl (by simp only [hqlen, SIG_Q_LEAF_ID_OFFSET, sig_path_offset_eq, sig_type_offset_eq]; omega))]
    have hin := buf_read_write_inside sig SIG_OTS_SIG_OFFSET s 0 4 (by omega)
    simpa using hin
  · rw [heq]
    show buf_read _ 1140 4 = _
    rw [ht]
    rw [buf_read_write_of_disjoint _ _ _ 1140 4
        (Or.inl (by simp only [hqlen, SIG_Q_LEAF_ID_OFFSET, sig_path_offset_eq, sig_type_offset_eq]; omega)),
      buf_read_write_of_disjoint _ _ _ 1140 4
        (Or.inr (by simp only [hqlen, SIG_Q_LEAF_ID_OFFSET, sig_path_offset_eq, sig_type_offset_eq]; omega))]
    have hself := buf_read_write_self (buf_write sig SIG_OTS_SIG_OFFSET s)
      (SIG_TYPE_OFFSET ctx.params.otstype)
      (mbedtls_lms_unsigned_int_to_network_bytes MBEDTLS_LMS_SHA256_M32_H10
        MBEDTLS_LMS_TYPE_LEN)
    rw [show (mbedtls_lms_unsigned_int_to_network_bytes MBEDTLS_LMS_SHA256_M32_H10
        MBEDTLS_LMS_TYPE_LEN).length = 4 from unsigned_int_to_network_bytes_length _ _]
      at hself
    exact hself
  · refine ⟨t, hT, ?_⟩
    intro h hh
    rw [heq]
    show buf_read _ (1144 + 32 * h) 32 = _
    rw [sig_path_offset_eq]
    have hrd := buf_read_flatten
      (buf_write
        (buf_write (buf_write sig SIG_OTS_SIG_OFFSET s)
          (SIG_TYPE_OFFSET ctx.params.otstype)
          (mbedtls_lms_unsigned_int_to_network_bytes ctx.params.type MBEDTLS_LMS_TYPE_LEN))
        SIG_Q_LEAF_ID_OFFSET
        (mbedtls_lms_unsigned_int_to_network_bytes ctx.q_next_usable_key
          MBEDTLS_LMOTS_Q_LEAF_ID_LEN))
      (SIG_PATH_OFFSET ctx.params.otstype)
      (path_nodes ctx.params.type t
        (MERKLE_TREE_INTERNAL_NODE_AM ctx.params.type + ctx.q_next_usable_key)
        (MBEDTLS_LMS_H_TREE_HEIGHT ctx.params.type)) h hmem
      (by rw [hplen, h_height_eq]; exact hh)
    rw [sig_path_offset_eq] at hrd
    rw [hrd, path_nodes_getD ctx.params.type t _ h _ (by rw [h_height_eq]; exact hh),
      internal_am_eq, m_node_bytes_eq]
    have hx1 : 2 ≤ (1024 + ctx.q_next_usable_key) / 2 ^ h := by
      rw [Nat.le_div_iff_mul_le (by positivity)]
      have hpow : 2 * 2 ^ h ≤ 2 ^ 10 := by
        calc 2 * 2 ^ h = 2 ^ (h + 1) := by rw [pow_succ, mul_comm]
        _ ≤ 2 ^ 10 := Nat.pow_le_pow_right (by omega) (by omega)
      have h10 : (2 : Nat) ^ 10 = 1024 := by norm_num
      omega
    have hx2 : (1024 + ctx.q_next_usable_key) / 2 ^ h ≤ 2047 := by
      have := Nat.div_le_self (1024 + ctx.q_next_usable_key) (2 ^ h)
      omega
    obtain ⟨hb1, hb2⟩ := xor_one_bounds hx1 hx2
    exact bytesOf_eq_self (hnodelen _ hb1 hb2)

/-! ## Claim C9 -/

/-- C9: a successful `mbedtls_lms_sign` at leaf `q` lays the signature out as
the 4-byte big-endian `q` at offset 0, the OTS signature at offset 4, the
4-byte big-endian `lms_type = 6` at offset 1140, and, at offset 1144, the ten
authentication-path nodes `tree[((2^H + q) / 2^h) xor 1]` for `h = 0..9` in
ascending height order, reporting a total length of exactly 1464 bytes. -/
theorem c9_signature_layout (hasher : Hasher) (ots : OtsScheme) (f_rng : RngT)
    (ctx : LmsPrivate) (msg : List Nat) (sig : Buf) (sig_size : Nat)
    (tree0 : Nat → List Nat) (s : List Nat)
    (htot : HasherTotal hasher)
    (hpk : ctx.have_private_key = true)
    (hsize : ¬ sig_size < 1464)
    (ht : ctx.params.type = MBEDTLS_LMS_SHA256_M32_H10)
    (ho : ctx.params.otstype = MBEDTLS_LMOTS_SHA256_N32_W8)
    (hq : ctx.q_next_usable_key < 1024)
    (hots : ots.ots_sign (ctx.ots_private_keys ctx.q_next_usable_key) f_rng msg = .ok s)
    (hslen : s.length = 1136) :
    (mbedtls_lms_sign hasher ots f_rng ctx msg sig sig_size tree0).ret = 0 ∧
    (mbedtls_lms_sign hasher ots f_rng ctx msg sig sig_size tree0).sig_len = some 1464 ∧
    buf_read (mbedtls_lms_sign hasher ots f_rng ctx msg sig sig_size tree0).sig 0 4 =
      mbedtls_lms_unsigned_int_to_network_bytes ctx.q_next_usable_key 4 ∧
    buf_read (mbedtls_lms_sign hasher ots f_rng ctx msg sig sig_size tree0).sig 4 1136 =
      s ∧
    buf_read (mbedtls_lms_sign hasher ots f_rng ctx msg sig sig_size tree0).sig 1140 4 =
      mbedtls_lms_unsigned_int_to_network_bytes MBEDTLS_LMS_SHA256_M32_H10 4 ∧
    ∃ t, calculate_merkle_tree hasher ctx tree0 = .ok t ∧
      ∀ h, h < 10 →
        buf_read (mbedtls_lms_sign hasher ots f_rng ctx msg sig sig_size tree0).sig
          (1144 + 32 * h) 32 =
          t (((1024 + ctx.q_next_usable_key) / 2 ^ h) ^^^ 1) := by
  obtain ⟨h1, h2, h3, h4, _, h5, h6⟩ := sign_layout hasher ots f_rng ctx msg sig sig_size
    tree0 s htot hpk hsize ht ho hq hots hslen
  exact ⟨h1, h2, h3, h4, h5, h6⟩

set_option maxRecDepth 40000 in
/-- Witness for C9: the constant hasher, the toy OTS collaborator and a
concrete populated context at leaf 0. -/
theorem c9_signature_layout_witness :
    (mbedtls_lms_sign hasher_const ots_toy rng_ok priv_demo [] (fun _ => 0) 1464
      (fun _ => [])).ret = 0 ∧
    (mbedtls_lms_sign hasher_const ots_toy rng_ok priv_demo [] (fun _ => 0) 1464
      (fun _ => [])).sig_len = some 1464 ∧
    buf_read (mbedtls_lms_sign hasher_const ots_toy rng_ok priv_demo [] (fun _ => 0) 1464
      (fun _ => [])).sig 0 4 =
      mbedtls_lms_unsigned_int_to_network_bytes priv_demo.q_next_usable_key 4 ∧
    buf_read (mbedtls_lms_sign hasher_const ots_toy rng_ok priv_demo [] (fun _ => 0) 1464
      (fun _ => [])).sig 4 1136 =
      mbedtls_lms_unsigned_int_to_network_bytes MBEDTLS_LMOTS_SHA256_N32_W8 4 ++
        bytesOf (priv_demo.ots_private_keys priv_demo.q_next_usable_key) 32 ++
        List.replicate 1100 0 ∧
    buf_read (mbedtls_lms_sign hasher_const ots_toy rng_ok priv_demo [] (fun _ => 0) 1464
      (fun _ => [])).sig 1140 4 =
      mbedtls_lms_unsigned_int_to_network_bytes MBEDTLS_LMS_SHA256_M32_H10 4 ∧
    ∃ t, calculate_merkle_tree hasher_const priv_demo (fun _ => []) = .ok t ∧
      ∀ h, h < 10 →
        buf_read (mbedtls_lms_sign hasher_const ots_toy rng_ok priv_demo [] (fun _ => 0)
          1464 (fun _ => [])).sig (1144 + 32 * h) 32 =
          t (((1024 + priv_demo.q_next_usable_key) / 2 ^ h) ^^^ 1) :=
  c9_signature_layout hasher_const ots_toy rng_ok priv_demo [] (fun _ => 0) 1464
    (fun _ => [])
    (mbedtls_lms_unsigned_int_to_network_bytes MBEDTLS_LMOTS_SHA256_N32_W8 4 ++
      bytesOf (priv_demo.ots_private_keys priv_demo.q_next_usable_key) 32 ++
      List.replicate 1100 0)
    (fun _ => ⟨zeros32, rfl, rfl⟩) rfl (by decide) rfl rfl (by decide) rfl (by decide)

/-! ## Success paths of key generation, public-key computation and the
serialisation round trip -/

theorem calculate_public_key_ok (hasher : Hasher) (pub0 : LmsPublic)
    (priv : LmsPrivate) (tree0 t : Nat → List Nat)
    (hT : calculate_merkle_tree hasher priv tree0 = .ok t)
    (hpk : priv.have_private_key = true)
    (ht : priv.params.type = MBEDTLS_LMS_SHA256_M32_H10)
    (ho : priv.params.otstype = MBEDTLS_LMOTS_SHA256_N32_W8) :
    mbedtls_lms_calculate_public_key hasher pub0 priv tree0 =
      ⟨0, { params := priv.params
            T_1_pub_key := bytesOf (t 1) (MBEDTLS_LMS_M_NODE_BYTES priv.params.type)
            have_public_key := true }⟩ := by
  unfold mbedtls_lms_calculate_public_key
  rw [if_neg (by simp [hpk]), if_neg (by simp [ht]), if_neg (by simp [ho]), hT]

theorem gen_slots_ok (ots : OtsScheme) (otst : Nat) (I seed : List Nat)
    (hv : ∀ q : Nat, ∃ k, ots.gen_private otst I q seed = .ok k ∧
      ∃ p, ots.calc_public k = .ok p) :
    ∀ (n i : Nat) (privs pubs : Nat → List Nat),
    ∃ privs2 pubs2,
      gen_slots ots otst I seed i n privs pubs = .ok (privs2, pubs2) ∧
      (∀ j, j < i ∨ i + n ≤ j → privs2 j = privs j ∧ pubs2 j = pubs j) ∧
      (∀ m, i ≤ m → m < i + n →
        ots.gen_private otst I m seed = .ok (privs2 m) ∧
        ots.calc_public (privs2 m) = .ok (pubs2 m)) := by
  intro n
  induction n with
  | zero =>
    intro i privs pubs
    exact ⟨privs, pubs, rfl, fun j hj => ⟨rfl, rfl⟩, fun m hm1 hm2 => absurd hm2 (by omega)⟩
  | succ n ih =>
    intro i privs pubs
    obtain ⟨k, hk, p, hp⟩ := hv i
    obtain ⟨privs2, pubs2, hgen, hframe, hslots⟩ :=
      ih (i + 1) (tree_set privs i k) (tree_set pubs i p)
    refine ⟨privs2, pubs2, ?_, ?_, ?_⟩
    · rw [gen_slots, hk]
      dsimp only
      rw [hp]
      exact hgen
    · intro j hj
      obtain ⟨hf1, hf2⟩ := hframe j (by omega)
      rw [hf1, hf2]
      simp only [tree_set]
      rw [if_neg (by omega), if_neg (by omega)]
      exact ⟨rfl, rfl⟩
    · intro m hm1 hm2
      by_cases hm : m = i
      · subst hm
        obtain ⟨hf1, hf2⟩ := hframe m (by omega)
        have hpv : privs2 m = k := by
          rw [hf1]
          simp [tree_set]
        have hpb : pubs2 m = p := by
          rw [hf2]
          simp [tree_set]
        rw [hpv, hpb]
        exact ⟨hk, hp⟩
      · exact hslots m (by omega) (by omega)

theorem generate_ok (ots : OtsScheme) (f_rng : RngT) (ctx0 : LmsPrivate)
    (seed : List Nat)
    (hov : OtsValid ots) (hfresh : ctx0.have_private_key = false) :
    ∃ priv,
      mbedtls_lms_generate_private_key ots MBEDTLS_LMS_SHA256_M32_H10
        MBEDTLS_LMOTS_SHA256_N32_W8 f_rng ctx0 seed = ⟨0, priv⟩ ∧
      priv.params = { type := MBEDTLS_LMS_SHA256_M32_H10
                      otstype := MBEDTLS_LMOTS_SHA256_N32_W8
                      I_key_identifier := (f_rng MBEDTLS_LMOTS_I_KEY_ID_LEN).2 } ∧
      priv.q_next_usable_key = 0 ∧
      priv.have_private_key = true ∧
      (∀ i, i < 1024 →
        ots.gen_private MBEDTLS_LMOTS_SHA256_N32_W8
            ((f_rng MBEDTLS_LMOTS_I_KEY_ID_LEN).2) i seed = .ok (priv.ots_private_keys i) ∧
        ots.calc_public (priv.ots_private_keys i) = .ok (priv.ots_public_keys i)) := by
  have hv : ∀ q : Nat, ∃ k, ots.gen_private MBEDTLS_LMOTS_SHA256_N32_W8
      ((f_rng MBEDTLS_LMOTS_I_KEY_ID_LEN).2) q seed = .ok k ∧
      ∃ p, ots.calc_public k = .ok p := by
    intro q
    obtain ⟨k, hk, p, hp, _⟩ := hov ((f_rng MBEDTLS_LMOTS_I_KEY_ID_LEN).2) q seed
    exact ⟨k, hk, p, hp⟩
  obtain ⟨privs2, pubs2, hgen, _, hslots⟩ := gen_slots_ok ots
    MBEDTLS_LMOTS_SHA256_N32_W8 ((f_rng MBEDTLS_LMOTS_I_KEY_ID_LEN).2) seed hv
    1024 0 (fun _ => []) (fun _ => [])
  refine ⟨{ params := { type := MBEDTLS_LMS_SHA256_M32_H10
                        otstype := MBEDTLS_LMOTS_SHA256_N32_W8
                        I_key_identifier := (f_rng MBEDTLS_LMOTS_I_KEY_ID_LEN).2 }
            ots_private_keys := privs2
            ots_public_keys := pubs2
            q_next_usable_key := 0
            have_private_key := true }, ?_, rfl, rfl, rfl, ?_⟩
  · unfold mbedtls_lms_generate_private_key
    rw [if_neg (by simp), if_neg (by simp), if_neg (by simp [hfresh])]
    dsimp only
    rw [show MERKLE_TREE_LEAF_NODE_AM MBEDTLS_LMS_SHA256_M32_H10 = 1024 from leaf_am_eq _,
      hgen]
  · intro i hi
    exact hslots i (by omega) (by omega)

theorem export_import_ok (pub : LmsPublic) (key0 : Buf) (pubi : LmsPublic)
    (hpub : pub.have_public_key = true)
    (ht : pub.params.type = MBEDTLS_LMS_SHA256_M32_H10)
    (ho : pub.params.otstype = MBEDTLS_LMOTS_SHA256_N32_W8)
    (hI : pub.params.I_key_identifier.length = 16)
    (hT : pub.T_1_pub_key.length = 32) :
    (mbedtls_lms_export_public_key pub key0 56).ret = 0 ∧
    (mbedtls_lms_export_public_key pub key0 56).key_len = some 56 ∧
    (mbedtls_lms_import_public_key pubi
        (mbedtls_lms_export_public_key pub key0 56).key 56).ret = 0 ∧
    (mbedtls_lms_import_public_key pubi
        (mbedtls_lms_export_public_key pub key0 56).key 56).ctx =
      { params := { type := MBEDTLS_LMS_SHA256_M32_H10
                    otstype := MBEDTLS_LMOTS_SHA256_N32_W8
                    I_key_identifier := pub.params.I_key_identifier }
        T_1_pub_key := pub.T_1_pub_key
        have_public_key := true } := by
  have hexp : mbedtls_lms_export_public_key pub key0 56 =
      ⟨0,
        buf_write
          (buf_write
            (buf_write
              (buf_write key0 PUBLIC_KEY_TYPE_OFFSET
                (mbedtls_lms_unsigned_int_to_network_bytes pub.params.type
                  MBEDTLS_LMS_TYPE_LEN))
              PUBLIC_KEY_OTSTYPE_OFFSET
              (mbedtls_lms_unsigned_int_to_network_bytes pub.params.otstype
                MBEDTLS_LMOTS_TYPE_LEN))
            PUBLIC_KEY_I_KEY_ID_OFFSET
            (bytesOf pub.params.I_key_identifier MBEDTLS_LMOTS_I_KEY_ID_LEN))
          PUBLIC_KEY_ROOT_NODE_OFFSET
          (bytesOf pub.T_1_pub_key (MBEDTLS_LMS_M_NODE_BYTES pub.params.type)),
        some (MBEDTLS_LMS_PUBLIC_KEY_LEN pub.params.type)⟩ := by
    unfold mbedtls_lms_export_public_key
    rw [if_neg (by rw [pub_key_len_eq]; omega), if_neg (by simp [hpub])]
  have htype_len : (mbedtls_lms_unsigned_int_to_network_bytes pub.params.type
      MBEDTLS_LMS_TYPE_LEN).length = 4 := unsigned_int_to_network_bytes_length _ _
  have hots_len : (mbedtls_lms_unsigned_int_to_network_bytes pub.params.otstype
      MBEDTLS_LMOTS_TYPE_LEN).length = 4 := unsigned_int_to_network_bytes_length _ _
  have hI_len : (bytesOf pub.params.I_key_identifier MBEDTLS_LMOTS_I_KEY_ID_LEN).length
      = 16 := bytesOf_length _ _
  have hT_len : (bytesOf pub.T_1_pub_key (MBEDTLS_LMS_M_NODE_BYTES pub.params.type)).length
      = 32 := bytesOf_length _ _
  have hrd_type : buf_read (mbedtls_lms_export_public_key pub key0 56).key 0 4 =
      mbedtls_lms_unsigned_int_to_network_bytes MBEDTLS_LMS_SHA256_M32_H10 4 := by
    rw [hexp]
    show buf_read _ 0 4 = _
    rw [buf_read_write_of_disjoint _ _ _ 0 4
        (Or.inl (by simp only [hT_len, PUBLIC_KEY_ROOT_NODE_OFFSET,
          PUBLIC_KEY_I_KEY_ID_OFFSET, PUBLIC_KEY_OTSTYPE_OFFSET, PUBLIC_KEY_TYPE_OFFSET,
          MBEDTLS_LMS_TYPE_LEN, MBEDTLS_LMOTS_TYPE_LEN, MBEDTLS_LMOTS_I_KEY_ID_LEN]; omega)),
      buf_read_write_of_disjoint _ _ _ 0 4
        (Or.inl (by simp only [hI_len, PUBLIC_KEY_I_KEY_ID_OFFSET,
          PUBLIC_KEY_OTSTYPE_OFFSET, PUBLIC_KEY_TYPE_OFFSET,
          MBEDTLS_LMS_TYPE_LEN, MBEDTLS_LMOTS_TYPE_LEN]; omega)),
      buf_read_write_of_disjoint _ _ _ 0 4
        (Or.inl (by simp only [hots_len, PUBLIC_KEY_OTSTYPE_OFFSET, PUBLIC_KEY_TYPE_OFFSET,
          MBEDTLS_LMS_TYPE_LEN]; omega))]
    rw [ht]
    have hself := buf_read_write_self key0 PUBLIC_KEY_TYPE_OFFSET
      (mbedtls_lms_unsigned_int_to_network_bytes MBEDTLS_LMS_SHA256_M32_H10
        MBEDTLS_LMS_TYPE_LEN)
    rw [show (mbedtls_lms_unsigned_int_to_network_bytes MBEDTLS_LMS_SHA256_M32_H10
        MBEDTLS_LMS_TYPE_LEN).length = 4 from unsigned_int_to_network_bytes_length _ _]
      at hself
    exact hself
  have hrd_ots : buf_read (mbedtls_lms_export_public_key pub key0 56).key 4 4 =
      mbedtls_lms_unsigned_int_to_network_bytes MBEDTLS_LMOTS_SHA256_N32_W8 4 := by
    rw [hexp]
    show buf_read _ 4 4 = _
    rw [buf_read_write_of_disjoint _ _ _ 4 4
        (Or.inl (by simp only [hT_len, PUBLIC_KEY_ROOT_NODE_OFFSET,
          PUBLIC_KEY_I_KEY_ID_OFFSET, PUBLIC_KEY_OTSTYPE_OFFSET, PUBLIC_KEY_TYPE_OFFSET,
          MBEDTLS_LMS_TYPE_LEN, MBEDTLS_LMOTS_TYPE_LEN, MBEDTLS_LMOTS_I_KEY_ID_LEN]; omega)),
      buf_read_write_of_disjoint _ _ _ 4 4
        (Or.inl (by simp only [hI_len, PUBLIC_KEY_I_KEY_ID_OFFSET,
          PUBLIC_KEY_OTSTYPE_OFFSET, PUBLIC_KEY_TYPE_OFFSET,
          MBEDTLS_LMS_TYPE_LEN, MBEDTLS_LMOTS_TYPE_LEN]; omega))]
    rw [ho]
    have hself := buf_read_write_self
      (buf_write key0 PUBLIC_KEY_TYPE_OFFSET
        (mbedtls_lms_unsigned_int_to_network_bytes pub.params.type MBEDTLS_LMS_TYPE_LEN))
      PUBLIC_KEY_OTSTYPE_OFFSET
      (mbedtls_lms_unsigned_int_to_network_bytes MBEDTLS_LMOTS_SHA256_N32_W8
        MBEDTLS_LMOTS_TYPE_LEN)
    rw [show (mbedtls_lms_unsigned_int_to_network_bytes MBEDTLS_LMOTS_SHA256_N32_W8
        MBEDTLS_LMOTS_TYPE_LEN).length = 4 from unsigned_int_to_network_bytes_length _ _]
      at hself
    exact hself
  have hrd_I : buf_read (mbedtls_lms_export_public_key pub key0 56).key 8 16 =
      pub.params.I_key_identifier := by
    rw [hexp]
    show buf_read _ 8 16 = _
    rw [buf_read_write_of_disjoint _ _ _ 8 16
        (Or.inl (by simp only [hT_len, PUBLIC_KEY_ROOT_NODE_OFFSET,
          PUBLIC_KEY_I_KEY_ID_OFFSET, PUBLIC_KEY_OTSTYPE_OFFSET, PUBLIC_KEY_TYPE_OFFSET,
          MBEDTLS_LMS_TYPE_LEN, MBEDTLS_LMOTS_TYPE_LEN, MBEDTLS_LMOTS_I_KEY_ID_LEN]; omega))]
    have hself := buf_read_write_self
      (buf_write
        (buf_write key0 PUBLIC_KEY_TYPE_OFFSET
          (mbedtls_lms_unsigned_int_to_network_bytes pub.params.type MBEDTLS_LMS_TYPE_LEN))
        PUBLIC_KEY_OTSTYPE_OFFSET
        (mbedtls_lms_unsigned_int_to_network_bytes pub.params.otstype
          MBEDTLS_LMOTS_TYPE_LEN))
      PUBLIC_KEY_I_KEY_ID_OFFSET
      (bytesOf pub.params.I_key_identifier MBEDTLS_LMOTS_I_KEY_ID_LEN)
    rw [hI_len] at hself
    exact hself.trans (bytesOf_eq_self (show pub.params.I_key_identifier.length =
      MBEDTLS_LMOTS_I_KEY_ID_LEN by rw [hI]; rfl))
  have hrd_T : buf_read (mbedtls_lms_export_public_key pub key0 56).key 24 32 =
      pub.T_1_pub_key := by
    rw [hexp]
    show buf_read _ 24 32 = _
    have hself := buf_read_write_self
      (buf_write
        (buf_write
          (buf_write key0 PUBLIC_KEY_TYPE_OFFSET
            (mbedtls_lms_unsigned_int_to_network_bytes pub.params.type
              MBEDTLS_LMS_TYPE_LEN))
          PUBLIC_KEY_OTSTYPE_OFFSET
          (mbedtls_lms_unsigned_int_to_network_bytes pub.params.otstype
            MBEDTLS_LMOTS_TYPE_LEN))
        PUBLIC_KEY_I_KEY_ID_OFFSET
        (bytesOf pub.params.I_key_identifier MBEDTLS_LMOTS_I_KEY_ID_LEN))
      PUBLIC_KEY_ROOT_NODE_OFFSET
      (bytesOf pub.T_1_pub_key (MBEDTLS_LMS_M_NODE_BYTES pub.params.type))
    rw [hT_len] at hself
    exact hself.trans (bytesOf_eq_self (show pub.T_1_pub_key.length =
      MBEDTLS_LMS_M_NODE_BYTES pub.params.type by rw [m_node_bytes_eq]; exact hT))
  have hdec_type : mbedtls_lms_network_bytes_to_unsigned_int MBEDTLS_LMS_TYPE_LEN
      (buf_read (mbedtls_lms_export_public_key pub key0 56).key PUBLIC_KEY_TYPE_OFFSET
        MBEDTLS_LMS_TYPE_LEN) = MBEDTLS_LMS_SHA256_M32_H10 := by
    rw [show PUBLIC_KEY_TYPE_OFFSET = 0 from rfl,
      show (MBEDTLS_LMS_TYPE_LEN : Nat) = 4 from rfl, hrd_type]
    exact network_roundtrip _ 4 (by norm_num [MBEDTLS_LMS_SHA256_M32_H10])
  have hdec_ots : mbedtls_lms_network_bytes_to_unsigned_int MBEDTLS_LMOTS_TYPE_LEN
      (buf_read (mbedtls_lms_export_public_key pub key0 56).key PUBLIC_KEY_OTSTYPE_OFFSET
        MBEDTLS_LMOTS_TYPE_LEN) = MBEDTLS_LMOTS_SHA256_N32_W8 := by
    rw [show PUBLIC_KEY_OTSTYPE_OFFSET = 4 from rfl,
      show (MBEDTLS_LMOTS_TYPE_LEN : Nat) = 4 from rfl, hrd_ots]
    exact network_roundtrip _ 4 (by norm_num [MBEDTLS_LMOTS_SHA256_N32_W8])
  refine ⟨by rw [hexp], by rw [hexp]; simp [pub_key_len_eq], ?_, ?_⟩
  · unfold mbedtls_lms_import_public_key
    rw [if_neg (by rw [pub_key_len_eq]; omega), if_neg (by rw [hdec_type]; simp),
      if_neg (by rw [hdec_ots]; simp)]
  · unfold mbedtls_lms_import_public_key
    rw [if_neg (by rw [pub_key_len_eq]; omega), if_neg (by rw [hdec_type]; simp),
      if_neg (by rw [hdec_ots]; simp)]
    dsimp only
    rw [hdec_type, hdec_ots]
    rw [show PUBLIC_KEY_I_KEY_ID_OFFSET = 8 from rfl,
      show PUBLIC_KEY_ROOT_NODE_OFFSET = 24 from rfl,
      show (MBEDTLS_LMOTS_I_KEY_ID_LEN : Nat) = 16 from rfl,
      show MBEDTLS_LMS_M_NODE_BYTES MBEDTLS_LMS_SHA256_M32_H10 = 32 from rfl]
    rw [hrd_I, hrd_T]

/-! ## Correctness of the verifier's path climb -/

theorem div_two_pow_succ (m j : Nat) : m * 2 / 2 ^ (j + 1) = m / 2 ^ j := by
  have h2 : (2 : Nat) ^ (j + 1) = 2 * 2 ^ j := by rw [pow_succ, mul_comm]
  rw [h2, ← Nat.div_div_eq_div_mul]
  congr 1
  omega

theorem div_two_pow_succ_odd (m j : Nat) : (m * 2 + 1) / 2 ^ (j + 1) = m / 2 ^ j := by
  have h2 : (2 : Nat) ^ (j + 1) = 2 * 2 ^ j := by rw [pow_succ, mul_comm]
  rw [h2, ← Nat.div_div_eq_div_mul]
  congr 1
  omega

theorem verify_climb_spec (hasher : Hasher) (params : LmsParameters) (sig : Buf)
    (t : Nat → List Nat)
    (hint : ∀ s, 1 ≤ s → s < 1024 →
      create_merkle_internal_value hasher params (t (s * 2)) (t (s * 2 + 1)) s =
        .ok (t s)) :
    ∀ (fuel h0 curr : Nat),
    (∀ j, j < fuel →
      buf_read sig (SIG_PATH_OFFSET params.otstype +
          (h0 + j) * MBEDTLS_LMS_M_NODE_BYTES params.type)
        (MBEDTLS_LMS_M_NODE_BYTES params.type) = t ((curr / 2 ^ j) ^^^ 1)) →
    (∀ j, j < fuel → 1 ≤ curr / 2 ^ j / 2 ∧ curr / 2 ^ j / 2 < 1024) →
    verify_climb hasher params sig h0 curr fuel (t curr) = t (curr / 2 ^ fuel) := by
  intro fuel
  induction fuel with
  | zero =>
    intro h0 curr hsib hb
    simp [verify_climb]
  | succ fuel ih =>
    intro h0 curr hsib hb
    have hsib0 := hsib 0 (by omega)
    rw [pow_zero, Nat.div_one, Nat.add_zero] at hsib0
    obtain ⟨hp1, hp2⟩ := hb 0 (by omega)
    rw [pow_zero, Nat.div_one] at hp1 hp2
    rcases Nat.mod_two_eq_zero_or_one curr with hpar | hpar
    · obtain ⟨k, rfl⟩ : ∃ k, curr = k * 2 := ⟨curr / 2, by omega⟩
      have hdiv : k * 2 / 2 = k := by omega
      rw [hdiv] at hp1 hp2
      rw [verify_climb]
      try dsimp only
      rw [hsib0, xor_one_of_even (by omega), if_neg (by omega), hdiv,
        hint k hp1 hp2]
      try dsimp only
      rw [div_two_pow_succ k fuel]
      apply ih (h0 + 1) k
      · intro j hj
        have hs := hsib (j + 1) (by omega)
        rw [div_two_pow_succ k j,
          show h0 + (j + 1) = h0 + 1 + j from by omega] at hs
        exact hs
      · intro j hj
        have hbj := hb (j + 1) (by omega)
        rwa [div_two_pow_succ k j] at hbj
    · obtain ⟨k, rfl⟩ : ∃ k, curr = k * 2 + 1 := ⟨curr / 2, by omega⟩
      have hdiv : (k * 2 + 1) / 2 = k := by omega
      rw [hdiv] at hp1 hp2
      rw [verify_climb]
      try dsimp only
      rw [hsib0, xor_one_of_odd (by omega),
        show k * 2 + 1 - 1 = k * 2 from by omega, if_pos (by omega), hdiv,
        hint k hp1 hp2]
      try dsimp only
      rw [div_two_pow_succ_odd k fuel]
      apply ih (h0 + 1) k
      · intro j hj
        have hs := hsib (j + 1) (by omega)
        rw [div_two_pow_succ_odd k j,
          show h0 + (j + 1) = h0 + 1 + j from by omega] at hs
        exact hs
      · intro j hj
        have hbj := hb (j + 1) (by omega)
        rwa [div_two_pow_succ_odd k j] at hbj

theorem verify_ok_generic (hasher : Hasher) (ots : OtsScheme) (priv : LmsPrivate)
    (msg : List Nat) (S : Buf) (treeS treeP tS tP : Nat → List Nat)
    (tc0 : List Nat) (I p s T1 : List Nat)
    (hparams : priv.params = { type := MBEDTLS_LMS_SHA256_M32_H10
                               otstype := MBEDTLS_LMOTS_SHA256_N32_W8
                               I_key_identifier := I })
    (hIlen : I.length = 16)
    (hTS : calculate_merkle_tree hasher priv treeS = .ok tS)
    (hTP : calculate_merkle_tree hasher priv treeP = .ok tP)
    (hT1 : T1 = bytesOf (tP 1) 32)
    (hr1 : buf_read S 0 4 = mbedtls_lms_unsigned_int_to_network_bytes 0 4)
    (hr2 : buf_read S 4 1136 = s)
    (hr3 : buf_read S 4 4 = s.take 4)
    (hr4 : buf_read S 1140 4 =
      mbedtls_lms_unsigned_int_to_network_bytes MBEDTLS_LMS_SHA256_M32_H10 4)
    (hr5 : ∀ j, j < 10 →
      buf_read S (1144 + 32 * j) 32 = tS (((1024 + 0) / 2 ^ j) ^^^ 1))
    (htake : s.take 4 =
      mbedtls_lms_unsigned_int_to_network_bytes MBEDTLS_LMOTS_SHA256_N32_W8 4)
    (hcand : ots.calc_candidate I 0 MBEDTLS_LMOTS_SHA256_N32_W8 msg s = .ok p)
    (hKc : p = priv.ots_public_keys 0) :
    mbedtls_lms_verify hasher ots
      { params := { type := MBEDTLS_LMS_SHA256_M32_H10
                    otstype := MBEDTLS_LMOTS_SHA256_N32_W8
                    I_key_identifier := I }
        T_1_pub_key := T1
        have_public_key := true } msg S 1464 tc0 = 0 := by
  obtain ⟨hleaf, hint⟩ := calculate_merkle_tree_spec hasher priv treeS tS hTS
  have hqdec : mbedtls_lms_network_bytes_to_unsigned_int MBEDTLS_LMOTS_Q_LEAF_ID_LEN
      (buf_read S SIG_Q_LEAF_ID_OFFSET MBEDTLS_LMOTS_Q_LEAF_ID_LEN) = 0 := by
    rw [show SIG_Q_LEAF_ID_OFFSET = 0 from rfl,
      show (MBEDTLS_LMOTS_Q_LEAF_ID_LEN : Nat) = 4 from rfl, hr1]
    exact network_roundtrip 0 4 (by norm_num)
  have hembed : mbedtls_lms_network_bytes_to_unsigned_int MBEDTLS_LMOTS_TYPE_LEN
      (buf_read S (SIG_OTS_SIG_OFFSET + MBEDTLS_LMOTS_SIG_TYPE_OFFSET)
        MBEDTLS_LMOTS_TYPE_LEN) = MBEDTLS_LMOTS_SHA256_N32_W8 := by
    rw [show SIG_OTS_SIG_OFFSET + MBEDTLS_LMOTS_SIG_TYPE_OFFSET = 4 from rfl,
      show (MBEDTLS_LMOTS_TYPE_LEN : Nat) = 4 from rfl, hr3, htake]
    exact network_roundtrip _ 4 (by norm_num [MBEDTLS_LMOTS_SHA256_N32_W8])
  have hlmsf : ∀ o : Nat, mbedtls_lms_network_bytes_to_unsigned_int MBEDTLS_LMS_TYPE_LEN
      (buf_read S (SIG_TYPE_OFFSET o) MBEDTLS_LMS_TYPE_LEN) =
      MBEDTLS_LMS_SHA256_M32_H10 := by
    intro o
    rw [sig_type_offset_eq, show (MBEDTLS_LMS_TYPE_LEN : Nat) = 4 from rfl, hr4]
    exact network_roundtrip _ 4 (by norm_num [MBEDTLS_LMS_SHA256_M32_H10])
  unfold mbedtls_lms_verify
  rw [if_neg (by simp), if_neg (by rw [sig_len_eq]; simp),
    if_neg (by simp), if_neg (by simp),
    if_neg (by rw [hembed]; simp), if_neg (by rw [hlmsf]; simp)]
  dsimp only
  rw [hqdec]
  rw [if_neg (by rw [ge_iff_le, leaf_am_eq]; omega)]
  rw [show (MBEDTLS_LMOTS_I_KEY_ID_LEN : Nat) = 16 from rfl, bytesOf_eq_self hIlen,
    show MBEDTLS_LMOTS_SIG_LEN MBEDTLS_LMOTS_SHA256_N32_W8 = 1136 from rfl,
    show SIG_OTS_SIG_OFFSET = 4 from rfl, hr2, hcand]
  dsimp only
  rw [internal_am_eq, hKc, ← hparams, hleaf 0 (by omega)]
  dsimp only
  rw [h_height_eq]
  have hclimb := verify_climb_spec hasher priv.params S tS hint 10 0 (1024 + 0)
    (by
      intro j hj
      have hjr := hr5 j hj
      rw [sig_path_offset_eq, m_node_bytes_eq,
        show (0 + j) * 32 = 32 * j from by ring]
      exact hjr)
    (by
      intro j hj
      interval_cases j <;> norm_num)
  rw [hclimb, m_node_bytes_eq, show (1024 + 0) / 2 ^ 10 = 1 from by norm_num, hT1,
    bytesOf_idem,
    show tS 1 = tP 1 from
      calculate_merkle_tree_det hasher priv treeS treeP tS tP hTS hTP 1 (by omega)
        (by omega)]
  simp

/-! ## Claim C1 -/

/-- C1: for every private context generated with the accepted parameter pair
and every message, signing with `mbedtls_lms_sign` succeeds and
`mbedtls_lms_verify` accepts the resulting signature under the public context
derived via `mbedtls_lms_calculate_public_key` and round-tripped through
`mbedtls_lms_export_public_key` / `mbedtls_lms_import_public_key` — given a
functioning hasher, an RNG that fills the requested 16 identifier bytes, and
an LMOTS collaborator meeting its §6.4 contract. -/
theorem c1_sign_then_verify (hasher : Hasher) (ots : OtsScheme) (f_rng : RngT)
    (ctx0 : LmsPrivate) (pub0 pubi : LmsPublic) (seed msg : List Nat)
    (key0 sigbuf : Buf) (treeP treeS : Nat → List Nat) (tc0 : List Nat)
    (htot : HasherTotal hasher) (hov : OtsValid ots)
    (hfresh : ctx0.have_private_key = false)
    (hrngI : ((f_rng MBEDTLS_LMOTS_I_KEY_ID_LEN).2).length = 16) :
    ∃ priv : LmsPrivate,
      mbedtls_lms_generate_private_key ots MBEDTLS_LMS_SHA256_M32_H10
        MBEDTLS_LMOTS_SHA256_N32_W8 f_rng ctx0 seed = ⟨0, priv⟩ ∧
      (mbedtls_lms_calculate_public_key hasher pub0 priv treeP).ret = 0 ∧
      (mbedtls_lms_export_public_key
        (mbedtls_lms_calculate_public_key hasher pub0 priv treeP).ctx key0 56).ret = 0 ∧
      (mbedtls_lms_import_public_key pubi
        (mbedtls_lms_export_public_key
          (mbedtls_lms_calculate_public_key hasher pub0 priv treeP).ctx key0 56).key
        56).ret = 0 ∧
      (mbedtls_lms_sign hasher ots f_rng priv msg sigbuf 1464 treeS).ret = 0 ∧
      mbedtls_lms_verify hasher ots
        (mbedtls_lms_import_public_key pubi
          (mbedtls_lms_export_public_key
            (mbedtls_lms_calculate_public_key hasher pub0 priv treeP).ctx key0 56).key
          56).ctx
        msg (mbedtls_lms_sign hasher ots f_rng priv msg sigbuf 1464 treeS).sig
        1464 tc0 = 0 := by
  obtain ⟨priv, hgen, hparams, hq0, hpk, hslots⟩ :=
    generate_ok ots f_rng ctx0 seed hov hfresh
  obtain ⟨tP, hTP⟩ := calculate_merkle_tree_total hasher priv treeP htot
  have ht : priv.params.type = MBEDTLS_LMS_SHA256_M32_H10 := by rw [hparams]
  have ho : priv.params.otstype = MBEDTLS_LMOTS_SHA256_N32_W8 := by rw [hparams]
  have hcp := calculate_public_key_ok hasher pub0 priv treeP tP hTP hpk ht ho
  obtain ⟨hexp_ret, hexp_len, himp_ret, himp_ctx⟩ :=
    export_import_ok (mbedtls_lms_calculate_public_key hasher pub0 priv treeP).ctx
      key0 pubi
      (by rw [hcp]) (by rw [hcp]; exact ht) (by rw [hcp]; exact ho)
      (by rw [hcp]
          show priv.params.I_key_identifier.length = 16
          rw [hparams]
          exact hrngI)
      (by rw [hcp]
          show (bytesOf (tP 1) (MBEDTLS_LMS_M_NODE_BYTES priv.params.type)).length = 32
          rw [bytesOf_length, m_node_bytes_eq])
  have hctxI : (mbedtls_lms_calculate_public_key hasher pub0 priv
      treeP).ctx.params.I_key_identifier = (f_rng MBEDTLS_LMOTS_I_KEY_ID_LEN).2 := by
    rw [hcp]
    show priv.params.I_key_identifier = _
    rw [hparams]
  have hctxT : (mbedtls_lms_calculate_public_key hasher pub0 priv
      treeP).ctx.T_1_pub_key = bytesOf (tP 1) 32 := by
    rw [hcp]
    show bytesOf (tP 1) (MBEDTLS_LMS_M_NODE_BYTES priv.params.type) = _
    rw [m_node_bytes_eq]
  rw [hctxI, hctxT] at himp_ctx
  obtain ⟨k, hk, p, hp, hplen, hsig⟩ :=
    hov ((f_rng MBEDTLS_LMOTS_I_KEY_ID_LEN).2) 0 seed
  obtain ⟨hgen0, hcalc0⟩ := hslots 0 (by omega)
  have hkeq : k = priv.ots_private_keys 0 := by
    rw [hk] at hgen0
    injection hgen0
  subst hkeq
  have hpeq : p = priv.ots_public_keys 0 := by
    rw [hp] at hcalc0
    injection hcalc0
  obtain ⟨s, hots, hslen, htake, hcand⟩ := hsig f_rng msg
  have hots2 : ots.ots_sign (priv.ots_private_keys priv.q_next_usable_key) f_rng msg =
      .ok s := by
    rw [hq0]
    exact hots
  obtain ⟨hsret, hslen2, hq_read, hs_read, hs4_read, htype_read, tlay, hTlay, hpath⟩ :=
    sign_layout hasher ots f_rng priv msg sigbuf 1464 treeS s htot hpk (by omega)
      ht ho (by omega) hots2 (by rw [hslen]; rfl)
  rw [hq0] at hq_read hpath
  refine ⟨priv, hgen, by rw [hcp], hexp_ret, himp_ret, hsret, ?_⟩
  rw [himp_ctx]
  exact verify_ok_generic hasher ots priv msg
    (mbedtls_lms_sign hasher ots f_rng priv msg sigbuf 1464 treeS).sig
    treeS treeP tlay tP tc0 ((f_rng MBEDTLS_LMOTS_I_KEY_ID_LEN).2) p s
    (bytesOf (tP 1) 32) hparams hrngI hTlay hTP rfl hq_read hs_read hs4_read
    htype_read hpath htake hcand hpeq

/-- The toy LMOTS collaborator satisfies the spec's §6.4 contract. -/
theorem ots_toy_valid : OtsValid ots_toy := by
  intro I q seed
  refine ⟨[q % 256], rfl, bytesOf [q % 256] 32, rfl, bytesOf_length _ _, ?_⟩
  intro rng msg
  have hA : (mbedtls_lms_unsigned_int_to_network_bytes MBEDTLS_LMOTS_SHA256_N32_W8
      4).length = 4 := unsigned_int_to_network_bytes_length _ _
  have hB : (bytesOf [q % 256] 32).length = 32 := bytesOf_length _ _
  refine ⟨mbedtls_lms_unsigned_int_to_network_bytes MBEDTLS_LMOTS_SHA256_N32_W8 4 ++
    bytesOf [q % 256] 32 ++ List.replicate 1100 0, rfl, ?_, ?_, ?_⟩
  · rw [show MBEDTLS_LMOTS_SIG_LEN MBEDTLS_LMOTS_SHA256_N32_W8 = 1136 from rfl,
      List.length_append, List.length_append, hA, hB, List.length_replicate]
  · rw [List.append_assoc]
    exact List.take_left' hA
  · have hlist : ((mbedtls_lms_unsigned_int_to_network_bytes MBEDTLS_LMOTS_SHA256_N32_W8 4
        ++ bytesOf [q % 256] 32 ++ List.replicate 1100 0).drop 4).take 32 =
        bytesOf [q % 256] 32 := by
      rw [List.append_assoc, List.drop_left' hA, List.take_left' hB]
    simp only [ots_toy]
    rw [hlist]

/-- Witness for C1: the constant hasher, the toy LMOTS collaborator and a
succeeding RNG, run end-to-end from a fresh private context. -/
theorem c1_sign_then_verify_witness :
    ∃ priv : LmsPrivate,
      mbedtls_lms_generate_private_key ots_toy MBEDTLS_LMS_SHA256_M32_H10
        MBEDTLS_LMOTS_SHA256_N32_W8 rng_ok mbedtls_lms_init_private
        (List.replicate 32 2) = ⟨0, priv⟩ ∧
      (mbedtls_lms_calculate_public_key hasher_const mbedtls_lms_init_public priv
        (fun _ => [])).ret = 0 ∧
      (mbedtls_lms_export_public_key
        (mbedtls_lms_calculate_public_key hasher_const mbedtls_lms_init_public priv
          (fun _ => [])).ctx (fun _ => 0) 56).ret = 0 ∧
      (mbedtls_lms_import_public_key mbedtls_lms_init_public
        (mbedtls_lms_export_public_key
          (mbedtls_lms_calculate_public_key hasher_const mbedtls_lms_init_public priv
            (fun _ => [])).ctx (fun _ => 0) 56).key 56).ret = 0 ∧
      (mbedtls_lms_sign hasher_const ots_toy rng_ok priv [1, 2, 3] (fun _ => 0) 1464
        (fun _ => [])).ret = 0 ∧
      mbedtls_lms_verify hasher_const ots_toy
        (mbedtls_lms_import_public_key mbedtls_lms_init_public
          (mbedtls_lms_export_public_key
            (mbedtls_lms_calculate_public_key hasher_const mbedtls_lms_init_public priv
              (fun _ => [])).ctx (fun _ => 0) 56).key 56).ctx
        [1, 2, 3]
        (mbedtls_lms_sign hasher_const ots_toy rng_ok priv [1, 2, 3] (fun _ => 0) 1464
          (fun _ => [])).sig 1464 [] = 0 :=
  c1_sign_then_verify hasher_const ots_toy rng_ok mbedtls_lms_init_private
    mbedtls_lms_init_public mbedtls_lms_init_public (List.replicate 32 2) [1, 2, 3]
    (fun _ => 0) (fun _ => 0) (fun _ => []) (fun _ => []) []
    (fun _ => ⟨zeros32, rfl, rfl⟩) ots_toy_valid rfl (by decide)

end LmsSpec
